import Mathlib

/-!
The odometry callback of mechatronics_timer as a state machine

Shallow embedding of `src/mechatronics_timer_node.cpp`.

* `Double` models the C++ `double` (IEEE 754 binary64, round to nearest, ties
  to even) with exact integer arithmetic: a finite value is
  `(-1)^neg * m * 2^e`.  Every operation returns the canonical encoding
  (`m < 2^53`, `e ≥ -1074`, and `2^52 ≤ m` unless `e = -1074`).
* `Time` and `Duration` model `ros::Time` and `ros::Duration` as exact
  nanosecond counts.
* `callback_odom` is the body of the C++ callback; its four function-local
  `static` variables are the record `Statics`, threaded explicitly, and the
  log macros become a returned list of `LogEntry`.
-/

set_option maxRecDepth 10000
set_option exponentiation.threshold 5000

namespace MechatronicsTimer

/-! ## IEEE 754 binary64 -/

/-- The values of a C++ `double`: NaN, the two infinities, and the finite
values `(-1)^neg * m * 2^e`. -/
inductive Double where
  | nan : Double
  | inf (neg : Bool) : Double
  | fin (neg : Bool) (m : Nat) (e : Int) : Double
  deriving DecidableEq, Repr

namespace Double

/-- Number of binary digits of `n`, by halving (`fuel` bounds the recursion). -/
def bitLenAux : Nat → Nat → Nat
  | 0, _ => 0
  | fuel + 1, n => if n = 0 then 0 else bitLenAux fuel (n / 2) + 1

/-- Number of binary digits of `n` (`0` for `0`). -/
def bitLen (n : Nat) : Nat := bitLenAux n n

/-- Round the exact value `(-1)^neg * m * 2^e` to the nearest binary64 value,
ties to even, with gradual underflow and overflow to infinity. -/
def roundFin (neg : Bool) (m : Nat) (e : Int) : Double :=
  if m = 0 then fin neg 0 (-1074)
  else
    let E : Int := max (e + (bitLen m : Int) - 53) (-1074)
    let M : Nat :=
      if E ≤ e then m * 2 ^ (e - E).toNat
      else
        let k := (E - e).toNat
        let q := m / 2 ^ k
        let r := m % 2 ^ k
        let h := 2 ^ (k - 1)
        if h < r ∨ (r = h ∧ q % 2 = 1) then q + 1 else q
    if M = 2 ^ 53 then (if 971 < E + 1 then inf neg else fin neg (2 ^ 52) (E + 1))
    else if 971 < E then inf neg else fin neg M E

/-- Round the rational `(-1)^neg * num / den` to the nearest binary64 value:
the quotient is computed to more than 64 bits with a sticky bit and then
rounded once.  This is how a decimal literal such as `0.1` becomes a
`double`. -/
def roundRat (neg : Bool) (num den : Nat) : Double :=
  if den = 0 then nan
  else if num = 0 then fin neg 0 (-1074)
  else
    let s : Int := (bitLen den : Int) - (bitLen num : Int) + 64
    let n := num * 2 ^ s.toNat
    let d := den * 2 ^ (-s).toNat
    let q := n / d
    let sticky := if n % d = 0 then 0 else 1
    roundFin neg (2 * q + sticky) (-s - 1)

/-- Bitwise integer square root: the bits of the root are tried from bit
`k - 1` downwards. -/
def isqrtAux : Nat → Nat → Nat → Nat
  | 0, _, r => r
  | k + 1, n, r =>
    if (r + 2 ^ k) * (r + 2 ^ k) ≤ n then isqrtAux k n (r + 2 ^ k) else isqrtAux k n r

/-- Integer square root (floor). -/
def isqrt (n : Nat) : Nat := isqrtAux (bitLen n / 2 + 1) n 0

/-- Unary minus. -/
def neg : Double → Double
  | nan => nan
  | inf s => inf (!s)
  | fin s m e => fin (!s) m e

/-- Signed mantissa. -/
def toInt (s : Bool) (m : Nat) : Int := if s then -(m : Int) else (m : Int)

/-- Signed mantissa of `(-1)^sa * ma * 2^ea` rescaled to the exponent
`min ea eb`. -/
def align (sa : Bool) (ma : Nat) (ea : Int) (eb : Int) : Int :=
  toInt sa (ma * 2 ^ (ea - min ea eb).toNat)

/-- Binary64 addition. -/
def add : Double → Double → Double
  | nan, _ => nan
  | _, nan => nan
  | inf sa, inf sb => if sa = sb then inf sa else nan
  | inf sa, fin _ _ _ => inf sa
  | fin _ _ _, inf sb => inf sb
  | fin sa ma ea, fin sb mb eb =>
    let t : Int := align sa ma ea eb + align sb mb eb ea
    if t = 0 then fin (sa && sb) 0 (-1074)
    else roundFin (decide (t < 0)) t.natAbs (min ea eb)

/-- Binary64 subtraction. -/
def sub (a b : Double) : Double := add a (neg b)

/-- Binary64 multiplication. -/
def mul : Double → Double → Double
  | nan, _ => nan
  | _, nan => nan
  | inf sa, inf sb => inf (xor sa sb)
  | inf sa, fin sb mb _ => if mb = 0 then nan else inf (xor sa sb)
  | fin sa ma _, inf sb => if ma = 0 then nan else inf (xor sa sb)
  | fin sa ma ea, fin sb mb eb => roundFin (xor sa sb) (ma * mb) (ea + eb)

/-- Correctly rounded binary64 square root (`std::sqrt`). -/
def sqrt : Double → Double
  | nan => nan
  | inf s => if s then nan else inf false
  | fin s m e =>
    if m = 0 then fin s 0 (-1074)
    else if s then nan
    else
      let k0 := 112 - bitLen m
      let k := if (e - (k0 : Int)) % 2 = 0 then k0 else k0 + 1
      let n := m * 2 ^ k
      let r := isqrt n
      let sticky := if r * r = n then 0 else 1
      roundFin false (2 * r + sticky) ((e - (k : Int)) / 2 - 1)

/-- The comparison `a < b` of C++ (false when either side is NaN). -/
def lt : Double → Double → Bool
  | nan, _ => false
  | _, nan => false
  | inf sa, inf sb => sa && !sb
  | inf sa, fin _ _ _ => sa
  | fin _ _ _, inf sb => !sb
  | fin sa ma ea, fin sb mb eb => decide (align sa ma ea eb < align sb mb eb ea)

/-- The comparison `a <= b` of C++ (false when either side is NaN). -/
def le : Double → Double → Bool
  | nan, _ => false
  | _, nan => false
  | inf sa, inf sb => sa || !sb
  | inf sa, fin _ _ _ => sa
  | fin _ _ _, inf sb => !sb
  | fin sa ma ea, fin sb mb eb => decide (align sa ma ea eb ≤ align sb mb eb ea)

instance : LT Double := ⟨fun a b => lt a b = true⟩
instance : LE Double := ⟨fun a b => le a b = true⟩
instance (a b : Double) : Decidable (a < b) := inferInstanceAs (Decidable (lt a b = true))
instance (a b : Double) : Decidable (a ≤ b) := inferInstanceAs (Decidable (le a b = true))
instance : Add Double := ⟨add⟩
instance : Sub Double := ⟨sub⟩
instance : Mul Double := ⟨mul⟩

/-- `std::max(a, b)`, that is `(a < b) ? b : a`. -/
def max (a b : Double) : Double := if a < b then b else a

/-- Positive zero, the value of the literal `0`. -/
def zero : Double := fin false 0 (-1074)

/-- The value of a decimal literal `digits / 10^scale`. -/
def ofDecimal (digits scale : Nat) : Double := roundRat false digits (10 ^ scale)

/-- Whether the value is NaN. -/
def isNaN : Double → Bool
  | nan => true
  | _ => false

end Double

/-! ## ROS time -/

/-- A `ros::Time`, as nanoseconds since the epoch (the 32-bit range of the
`sec` field is not modelled). -/
structure Time where
  toNSec : Nat
  deriving DecidableEq, Repr

/-- A `ros::Duration`, as signed nanoseconds (the 32-bit range of the `sec`
field is not modelled). -/
structure Duration where
  toNSec : Int
  deriving DecidableEq, Repr

/-- The difference `a - b` of two `ros::Time` values. -/
def Time.sub (a b : Time) : Duration := ⟨(a.toNSec : Int) - (b.toNSec : Int)⟩

/-- The duration `ros::Duration(sec)` for a whole number of seconds. -/
def Duration.ofSec (sec : Int) : Duration := ⟨sec * 1000000000⟩

instance : LT Duration := ⟨fun a b => a.toNSec < b.toNSec⟩
instance : LE Duration := ⟨fun a b => a.toNSec ≤ b.toNSec⟩
instance (a b : Duration) : Decidable (a < b) := inferInstanceAs (Decidable (a.toNSec < b.toNSec))
instance (a b : Duration) : Decidable (a ≤ b) := inferInstanceAs (Decidable (a.toNSec ≤ b.toNSec))

/-! ## Messages and log output -/

/-- The `geometry_msgs/Point` at `msg->pose.pose.position`. -/
structure Point where
  x : Double
  y : Double
  z : Double
  deriving DecidableEq, Repr

/-- The `geometry_msgs/Vector3` at `msg->twist.twist.linear`. -/
structure Vector3 where
  x : Double
  y : Double
  z : Double
  deriving DecidableEq, Repr

/-- The fields of `nav_msgs::Odometry` that exist for the callback: the
position of the pose and the linear part of the twist. -/
structure Odometry where
  position : Point
  linear : Vector3
  deriving DecidableEq, Repr

/-- One invocation of the callback: the message and the value that
`ros::Time::now()` returns during it.  That clock reading is the only time
the callback associates with a sample; `msg->header.stamp` is never read. -/
structure Sample where
  now : Time
  msg : Odometry
  deriving DecidableEq, Repr

/-- Severity of a log line (`ROS_INFO` / `ROS_WARN`). -/
inductive Level where
  | INFO
  | WARN
  deriving DecidableEq, Repr

/-- One operand streamed into a log line: a string literal, a `double`, or
`d.toSec()` of a duration `d`. -/
inductive Piece where
  | str (s : String)
  | dbl (x : Double)
  | toSec (d : Duration)
  deriving DecidableEq, Repr

/-- One emitted log line. -/
structure LogEntry where
  level : Level
  pieces : List Piece
  deriving DecidableEq, Repr

/-! ## The timer -/

/-- Line 11: `start_detection = 0.1`. -/
def start_detection : Double := Double.ofDecimal 1 1

/-- Line 12: `goal_detection = 0.3`. -/
def goal_detection : Double := Double.ofDecimal 3 1

/-- The enumeration `timer_state`. -/
inductive timer_state where
  | MEASURING_STARTING_POSITION
  | WAITING_FOR_START
  | RUNNING
  | GOAL_DETECTED
  | WAITING_FOR_RESTART
  deriving DecidableEq, Repr

/-- The struct `position`. -/
structure position where
  x : Double
  y : Double
  deriving DecidableEq, Repr

/-- The function-local `static` variables of `callback_odom`. -/
structure Statics where
  state : timer_state
  max_speed : Double
  staring_pos : position
  start_time : Time
  deriving DecidableEq, Repr

/-- The statics before the first call: `state` has its initialiser, the other
three are zero-initialised. -/
def Statics.initial : Statics :=
  { state := timer_state.MEASURING_STARTING_POSITION
    max_speed := Double.zero
    staring_pos := ⟨Double.zero, Double.zero⟩
    start_time := ⟨0⟩ }

/-- Lines 48-50 and 74-76: `distance_from_start`. -/
def distance_from_start (msg : Odometry) (staring_pos : position) : Double :=
  let dx := msg.position.x - staring_pos.x
  let dy := msg.position.y - staring_pos.y
  Double.sqrt (dx * dx + dy * dy)

/-- Lines 69-71: the norm of the linear velocity. -/
def speed (msg : Odometry) : Double :=
  Double.sqrt (msg.linear.x * msg.linear.x + msg.linear.y * msg.linear.y +
    msg.linear.z * msg.linear.z)

/-- The line `ROS_INFO("Waiting for car to start...")`. -/
def logWaiting : LogEntry := ⟨Level.INFO, [Piece.str "Waiting for car to start..."]⟩

/-- The line `ROS_INFO("START!!!!!")`. -/
def logStart : LogEntry := ⟨Level.INFO, [Piece.str "START!!!!!"]⟩

/-- The line `ROS_INFO("GOAL!!!!!")`. -/
def logGoal : LogEntry := ⟨Level.INFO, [Piece.str "GOAL!!!!!"]⟩

/-- The line of `ROS_INFO_STREAM` at lines 81-82. -/
def logResult (race_duration : Duration) (max_speed : Double) : LogEntry :=
  ⟨Level.INFO, [Piece.str "Time: ", Piece.toSec race_duration,
    Piece.str ", max speed = ", Piece.dbl max_speed, Piece.str " m/s"]⟩

/-- The line `ROS_WARN("Restart the node to time again...")`. -/
def logRestart : LogEntry := ⟨Level.WARN, [Piece.str "Restart the node to time again..."]⟩

/-- The three lines emitted when the goal is detected, in order. -/
def goalLogs (race_duration : Duration) (max_speed : Double) : List LogEntry :=
  [logGoal, logResult race_duration max_speed, logRestart]

/-- The body of `callback_odom` (lines 29-89): the statics after the call and
the log lines emitted by it, in order. -/
def callback_odom (st : Statics) (now : Time) (msg : Odometry) : Statics × List LogEntry :=
  if st.state = timer_state.MEASURING_STARTING_POSITION then
    ({ st with
        max_speed := Double.zero
        staring_pos := ⟨msg.position.x, msg.position.y⟩
        state := timer_state.WAITING_FOR_START },
     [logWaiting])
  else if st.state = timer_state.WAITING_FOR_START then
    if distance_from_start msg st.staring_pos > start_detection then
      ({ st with state := timer_state.RUNNING, start_time := now }, [logStart])
    else (st, [])
  else if st.state = timer_state.RUNNING then
    let race_duration := Time.sub now st.start_time
    if race_duration > Duration.ofSec 5 then
      let max_speed := Double.max st.max_speed (speed msg)
      if distance_from_start msg st.staring_pos < goal_detection then
        ({ st with max_speed := max_speed, state := timer_state.WAITING_FOR_RESTART },
         goalLogs race_duration max_speed)
      else ({ st with max_speed := max_speed }, [])
    else (st, [])
  else (st, [])

/-- One step of the timer on a sample. -/
def step (st : Statics) (s : Sample) : Statics × List LogEntry :=
  callback_odom st s.now s.msg

/-- Feed a sequence of samples, in order: the final statics and all log lines
emitted, in order. -/
def run : Statics → List Sample → Statics × List LogEntry
  | st, [] => (st, [])
  | st, s :: rest =>
    ((run (step st s).1 rest).1, (step st s).2 ++ (run (step st s).1 rest).2)

/-- A sample from its clock reading in nanoseconds, its position and its
linear velocity. -/
def Sample.mk6 (ns : Nat) (px py pz vx vy vz : Double) : Sample :=
  ⟨⟨ns⟩, ⟨⟨px, py, pz⟩, ⟨vx, vy, vz⟩⟩⟩

/-- The statics right after the origin has been captured from `s0`. -/
def afterCapture (s0 : Sample) : Statics :=
  { state := timer_state.WAITING_FOR_START
    max_speed := Double.zero
    staring_pos := ⟨s0.msg.position.x, s0.msg.position.y⟩
    start_time := ⟨0⟩ }

/-- The statics right after the start has been detected at `sStart`, with the
origin captured from `s0`. -/
def afterStart (s0 sStart : Sample) : Statics :=
  { state := timer_state.RUNNING
    max_speed := Double.zero
    staring_pos := ⟨s0.msg.position.x, s0.msg.position.y⟩
    start_time := sStart.now }

/-! ## Example inputs -/

/-- A sample at clock reading `ns` nanoseconds, at position `(x, y, 0)` with
linear velocity `(v, 0, 0)`. -/
def sampleAt (ns : Nat) (x y v : Double) : Sample :=
  Sample.mk6 ns x y Double.zero v Double.zero Double.zero

/-- Statics with origin `(0, 0)` in a given state, with `max_speed = 0`. -/
def staticsAtOrigin (state : timer_state) (start_ns : Nat) : Statics :=
  { state := state, max_speed := Double.zero, staring_pos := ⟨Double.zero, Double.zero⟩,
    start_time := ⟨start_ns⟩ }

/-- Example run: the sample that fixes the origin at `(1, 2)`. -/
def exOrigin : Sample := sampleAt 1000000000 (Double.ofDecimal 1 0) (Double.ofDecimal 2 0) Double.zero

/-- Example run: two samples within 0.1 of the origin. -/
def exNear : List Sample :=
  [sampleAt 2000000000 (Double.ofDecimal 105 2) (Double.ofDecimal 2 0) (Double.ofDecimal 5 1),
   sampleAt 3000000000 (Double.ofDecimal 1 0) (Double.ofDecimal 205 2) (Double.ofDecimal 5 1)]

/-- Example run: the first sample farther than 0.1 from the origin. -/
def exStart : Sample :=
  sampleAt 4000000000 (Double.ofDecimal 12 1) (Double.ofDecimal 2 0) (Double.ofDecimal 1 0)

/-- Example run: after the start, a sample close to the origin 1 s later, a
sample on the origin exactly 5 s later, and a far sample 6 s later at speed 4. -/
def exMid : List Sample :=
  [sampleAt 5000000000 (Double.ofDecimal 11 1) (Double.ofDecimal 2 0) (Double.ofDecimal 10 0),
   sampleAt 9000000000 (Double.ofDecimal 1 0) (Double.ofDecimal 2 0) (Double.ofDecimal 10 0),
   sampleAt 10000000000 (Double.ofDecimal 3 0) (Double.ofDecimal 2 0) (Double.ofDecimal 4 0)]

/-- Example run: 8 s after the start, a sample within 0.3 of the origin at
speed 3. -/
def exGoal : Sample :=
  sampleAt 12000000000 (Double.ofDecimal 12 1) (Double.ofDecimal 2 0) (Double.ofDecimal 3 0)

/-- Example run: samples after the goal. -/
def exPost : List Sample :=
  [sampleAt 13000000000 (Double.ofDecimal 5 0) (Double.ofDecimal 5 0) (Double.ofDecimal 9 0),
   sampleAt 14000000000 (Double.ofDecimal 1 0) (Double.ofDecimal 2 0) (Double.ofDecimal 9 0)]

/-! ## Log lines as text -/

/-- One unit of an emitted line: a character of a string literal, or a number
inserted by the stream operator. -/
inductive Token where
  | chr (c : Char)
  | dbl (x : Double)
  | toSec (d : Duration)
  deriving DecidableEq, Repr

/-- The characters of a string literal as tokens. -/
def chars (s : String) : List Token := s.toList.map Token.chr

/-- The tokens of one streamed operand. -/
def Piece.tokens : Piece → List Token
  | Piece.str s => chars s
  | Piece.dbl x => [Token.dbl x]
  | Piece.toSec d => [Token.toSec d]

/-- The tokens of a sequence of streamed operands, concatenated. -/
def tokensOf : List Piece → List Token
  | [] => []
  | p :: ps => p.tokens ++ tokensOf ps

/-- The text of a log line, numbers left as tokens. -/
def LogEntry.tokens (l : LogEntry) : List Token := tokensOf l.pieces

/-- The result line in the wording of the specification,
"Time: {duration}s, max speed = {maxSpeed} m/s": the duration is followed at
once by the unit letter. -/
def specResultTokens (race_duration : Duration) (max_speed : Double) : List Token :=
  chars "Time: " ++ [Token.toSec race_duration] ++ chars "s, max speed = " ++
    [Token.dbl max_speed] ++ chars " m/s"

/-- The result line as lines 81-82 stream it: no unit letter follows the
duration. -/
def codeResultTokens (race_duration : Duration) (max_speed : Double) : List Token :=
  chars "Time: " ++ [Token.toSec race_duration] ++ chars ", max speed = " ++
    [Token.dbl max_speed] ++ chars " m/s"

/-! ## The reported maximum, in the words of the specification -/

/-- The samples of `mid` whose clock reading is more than 5 s after
`start_time`. -/
def afterGrace (start_time : Time) (mid : List Sample) : List Sample :=
  mid.filter (fun p => decide (Duration.ofSec 5 < Time.sub p.now start_time))

/-- The greatest of a list of speeds: `std::max` folded over the list from 0. -/
def maxOf (speeds : List Double) : Double := speeds.foldl Double.max Double.zero

/-- The speeds that count for a run: those of the samples of `mid` read more
than 5 s after the start sample, then that of the goal sample. -/
def countedSpeeds (sStart : Sample) (mid : List Sample) (sGoal : Sample) : List Double :=
  (afterGrace sStart.now mid ++ [sGoal]).map (fun p => speed p.msg)

/-! ## Facts about the binary64 model -/

theorem start_detection_eq : start_detection = Double.fin false 7205759403792794 (-56) := by
  decide

theorem goal_detection_eq : goal_detection = Double.fin false 5404319552844595 (-54) := by
  decide

theorem Double.bitLenAux_spec (fuel : Nat) : ∀ n : Nat, n ≤ fuel →
    n < 2 ^ Double.bitLenAux fuel n := by
  induction fuel with
  | zero => intro n hn; simp [Double.bitLenAux]; omega
  | succ f ih =>
    intro n hn
    unfold Double.bitLenAux
    split
    · next h0 => simp [h0]
    · next h0 =>
      have h2 := ih (n / 2) (by omega)
      rw [Nat.pow_succ]
      omega

/-- The binary digits of `n` suffice to write `n`. -/
theorem Double.bitLen_spec (n : Nat) : n < 2 ^ Double.bitLen n :=
  Double.bitLenAux_spec n n (Nat.le_refl n)

theorem Double.isqrtAux_spec (k : Nat) : ∀ n r : Nat, r * r ≤ n →
    n < (r + 2 ^ k) * (r + 2 ^ k) →
    Double.isqrtAux k n r * Double.isqrtAux k n r ≤ n ∧
    n < (Double.isqrtAux k n r + 1) * (Double.isqrtAux k n r + 1) := by
  induction k with
  | zero => intro n r h1 h2; simpa [Double.isqrtAux] using ⟨h1, h2⟩
  | succ k ih =>
    intro n r h1 h2
    unfold Double.isqrtAux
    split
    · next h =>
      apply ih n (r + 2 ^ k) h
      have : r + 2 ^ k + 2 ^ k = r + 2 ^ (k + 1) := by rw [Nat.pow_succ]; omega
      rw [this]; exact h2
    · next h => exact ih n r h1 (by omega)

/-- The function `isqrt` is the floor of the square root. -/
theorem Double.isqrt_spec (n : Nat) :
    Double.isqrt n * Double.isqrt n ≤ n ∧ n < (Double.isqrt n + 1) * (Double.isqrt n + 1) := by
  apply Double.isqrtAux_spec _ n 0 (Nat.zero_le n)
  have h := Double.bitLen_spec n
  have hle : Double.bitLen n ≤ 2 * (Double.bitLen n / 2 + 1) := by omega
  calc n < 2 ^ Double.bitLen n := h
    _ ≤ 2 ^ (2 * (Double.bitLen n / 2 + 1)) := Nat.pow_le_pow_right (by decide) hle
    _ = (0 + 2 ^ (Double.bitLen n / 2 + 1)) * (0 + 2 ^ (Double.bitLen n / 2 + 1)) := by
      rw [Nat.zero_add, ← Nat.pow_add]; congr 1; omega

/-- The literal `0.1` is within half a unit in the last place of 1/10, and
`0.3` of 3/10 (mantissas scaled by 10 against the power of two). -/
theorem literal_nearest :
    start_detection = Double.fin false 7205759403792794 (-56) ∧
    10 * 7205759403792794 - 2 ^ 56 ≤ 5 ∧ 2 ^ 56 ≤ 10 * 7205759403792794 ∧
    goal_detection = Double.fin false 5404319552844595 (-54) ∧
    3 * 2 ^ 54 - 10 * 5404319552844595 ≤ 5 ∧ 10 * 5404319552844595 ≤ 3 * 2 ^ 54 := by
  decide

/-- Sample evaluations of the arithmetic: `sqrt(4) = 2`, `sqrt(9 + 16) = 5`,
`0.1 + 0.2` is the value above `0.3`, `sqrt(-1)` is NaN, and `sqrt(x*x) = x`
at `x = 0.3`. -/
theorem arithmetic_examples :
    Double.sqrt (Double.ofDecimal 4 0) = Double.ofDecimal 2 0 ∧
    Double.sqrt (Double.ofDecimal 3 0 * Double.ofDecimal 3 0 +
      Double.ofDecimal 4 0 * Double.ofDecimal 4 0) = Double.ofDecimal 5 0 ∧
    Double.ofDecimal 1 1 + Double.ofDecimal 2 1 = Double.fin false 5404319552844596 (-54) ∧
    Double.sqrt (Double.ofDecimal 2 0) = Double.fin false 6369051672525773 (-52) ∧
    Double.sqrt (Double.zero - Double.ofDecimal 1 0) = Double.nan ∧
    Double.sqrt (Double.ofDecimal 3 1 * Double.ofDecimal 3 1) = Double.ofDecimal 3 1 := by
  decide

/-! ## Order facts about `Double` -/

theorem Double.lt_iff (a b : Double) : a < b ↔ Double.lt a b = true := Iff.rfl

theorem Double.le_iff (a b : Double) : a ≤ b ↔ Double.le a b = true := Iff.rfl

theorem Double.lt_irrefl (a : Double) : ¬ a < a := by
  rw [Double.lt_iff]
  cases a <;> simp [Double.lt]

theorem Double.lt_asymm {a b : Double} (h : a < b) : ¬ b < a := by
  rw [Double.lt_iff] at *
  rcases a with _ | sa | ⟨sa, ma, ea⟩ <;> rcases b with _ | sb | ⟨sb, mb, eb⟩ <;>
    simp_all [Double.lt]
  omega

theorem Double.not_lt_of_le {a b : Double} (h : a ≤ b) : ¬ b < a := by
  rw [Double.lt_iff]
  rw [Double.le_iff] at h
  rcases a with _ | sa | ⟨sa, ma, ea⟩ <;> rcases b with _ | sb | ⟨sb, mb, eb⟩ <;>
    simp_all [Double.lt, Double.le]
  cases sa <;> cases sb <;> simp_all

theorem Double.le_of_lt {a b : Double} (h : a < b) : a ≤ b := by
  rw [Double.le_iff]
  rw [Double.lt_iff] at h
  rcases a with _ | sa | ⟨sa, ma, ea⟩ <;> rcases b with _ | sb | ⟨sb, mb, eb⟩ <;>
    simp_all [Double.lt, Double.le]
  omega

theorem Double.le_of_not_lt {a b : Double} (ha : a.isNaN = false) (hb : b.isNaN = false)
    (h : ¬ a < b) : b ≤ a := by
  rw [Double.le_iff]
  rw [Double.lt_iff] at h
  rcases a with _ | sa | ⟨sa, ma, ea⟩ <;> rcases b with _ | sb | ⟨sb, mb, eb⟩ <;>
    simp_all [Double.lt, Double.le, Double.isNaN]
  cases sa <;> cases sb <;> simp_all

theorem Double.le_refl {a : Double} (ha : a.isNaN = false) : a ≤ a :=
  Double.le_of_not_lt ha ha (Double.lt_irrefl a)

theorem Double.max_eq_or (a b : Double) : Double.max a b = a ∨ Double.max a b = b := by
  unfold Double.max
  split <;> simp

theorem Double.not_max_lt_left (a b : Double) : ¬ Double.max a b < a := by
  unfold Double.max
  split
  · next h => exact Double.lt_asymm h
  · exact Double.lt_irrefl a

theorem Double.le_max_left {a : Double} (b : Double) (ha : a.isNaN = false) :
    a ≤ Double.max a b := by
  unfold Double.max
  split
  · next h => exact Double.le_of_lt h
  · exact Double.le_refl ha

theorem Double.le_max_right {a b : Double} (ha : a.isNaN = false) (hb : b.isNaN = false) :
    b ≤ Double.max a b := by
  unfold Double.max
  split
  · exact Double.le_refl hb
  · next h => exact Double.le_of_not_lt ha hb h

theorem Double.lt_not_nan {a b : Double} (h : a < b) : a.isNaN = false ∧ b.isNaN = false := by
  rw [Double.lt_iff] at h
  rcases a with _ | sa | ⟨sa, ma, ea⟩ <;> rcases b with _ | sb | ⟨sb, mb, eb⟩ <;>
    simp_all [Double.lt, Double.isNaN]

theorem Double.le_not_nan {a b : Double} (h : a ≤ b) : a.isNaN = false ∧ b.isNaN = false := by
  rw [Double.le_iff] at h
  rcases a with _ | sa | ⟨sa, ma, ea⟩ <;> rcases b with _ | sb | ⟨sb, mb, eb⟩ <;>
    simp_all [Double.le, Double.isNaN]

theorem Double.toInt_mul (s : Bool) (m k : Nat) :
    Double.toInt s (m * k) = Double.toInt s m * (k : Int) := by
  cases s <;> simp [Double.toInt]

/-- The signed mantissa at exponent `E` is the aligned one times a power of
two, for every `E` at most both exponents. -/
theorem Double.align_scale (s : Bool) (m : Nat) (e e2 E : Int) (hE : E ≤ min e e2) :
    Double.toInt s (m * 2 ^ (e - E).toNat) =
      Double.align s m e e2 * ((2 ^ (min e e2 - E).toNat : Nat) : Int) := by
  unfold Double.align
  rw [← Double.toInt_mul, Nat.mul_assoc, ← Nat.pow_add]
  congr 3
  have h1 : min e e2 ≤ e := min_le_left e e2
  omega

/-- Comparison of two aligned mantissas at any common exponent below both. -/
theorem Double.align_le_iff (sa : Bool) (ma : Nat) (ea : Int) (sb : Bool) (mb : Nat) (eb : Int)
    (E : Int) (hE : E ≤ min ea eb) :
    Double.align sa ma ea eb ≤ Double.align sb mb eb ea ↔
      Double.toInt sa (ma * 2 ^ (ea - E).toNat) ≤ Double.toInt sb (mb * 2 ^ (eb - E).toNat) := by
  rw [Double.align_scale sa ma ea eb E hE,
    Double.align_scale sb mb eb ea E (by rw [min_comm]; exact hE), min_comm eb ea]
  have hpos : (0 : Int) < ((2 ^ (min ea eb - E).toNat : Nat) : Int) := by positivity
  exact (mul_le_mul_right hpos).symm

theorem Double.le_trans {a b c : Double} (hab : a ≤ b) (hbc : b ≤ c) : a ≤ c := by
  rw [Double.le_iff] at hab hbc ⊢
  rcases a with _ | sa | ⟨sa, ma, ea⟩ <;> rcases b with _ | sb | ⟨sb, mb, eb⟩ <;>
    rcases c with _ | sc | ⟨sc, mc, ec⟩ <;> simp only [Double.le] at hab hbc ⊢
  all_goals first
    | contradiction
    | (cases sa <;> cases sb <;> cases sc <;> simp_all; done)
    | skip
  have hE1 : min ea (min eb ec) ≤ min ea eb := le_min (min_le_left _ _)
    ((min_le_right _ _).trans (min_le_left _ _))
  have hE2 : min ea (min eb ec) ≤ min eb ec := min_le_right _ _
  have hE3 : min ea (min eb ec) ≤ min ea ec := le_min (min_le_left _ _)
    ((min_le_right _ _).trans (min_le_right _ _))
  rw [decide_eq_true_eq] at hab hbc ⊢
  rw [Double.align_le_iff _ _ _ _ _ _ _ hE1] at hab
  rw [Double.align_le_iff _ _ _ _ _ _ _ hE2] at hbc
  rw [Double.align_le_iff _ _ _ _ _ _ _ hE3]
  exact Int.le_trans hab hbc

theorem Double.zero_le_fin_false (m : Nat) (e : Int) : Double.zero ≤ Double.fin false m e := by
  rw [Double.le_iff]
  simp [Double.le, Double.zero, Double.align, Double.toInt]

theorem Double.zero_le_fin_zero (s : Bool) (e : Int) : Double.zero ≤ Double.fin s 0 e := by
  rw [Double.le_iff]
  cases s <;> simp [Double.le, Double.zero, Double.align, Double.toInt]

theorem Double.zero_le_inf : Double.zero ≤ Double.inf false := by
  decide

theorem Double.zero_le_roundFin (m : Nat) (e : Int) : Double.zero ≤ Double.roundFin false m e := by
  unfold Double.roundFin
  simp only []
  split_ifs <;>
    first
      | exact Double.zero_le_fin_false _ _
      | exact Double.zero_le_inf

/-- A square root is NaN or at least zero. -/
theorem Double.sqrt_nonneg (x : Double) :
    (Double.sqrt x).isNaN = true ∨ Double.zero ≤ Double.sqrt x := by
  rcases x with _ | s | ⟨s, m, e⟩
  · exact Or.inl rfl
  · cases s
    · exact Or.inr Double.zero_le_inf
    · exact Or.inl rfl
  · unfold Double.sqrt
    simp only []
    split_ifs
    all_goals first
      | exact Or.inr (Double.zero_le_fin_zero _ _)
      | exact Or.inl rfl
      | exact Or.inr (Double.zero_le_roundFin _ _)

/-- If `m` is at least zero, so is `std::max(m, sqrt(x))`, also when the
square root is NaN. -/
theorem Double.zero_le_max_sqrt (m x : Double) (hm : Double.zero ≤ m) :
    Double.zero ≤ Double.max m (Double.sqrt x) := by
  unfold Double.max
  split
  · next h =>
    rcases Double.sqrt_nonneg x with hn | hn
    · rw [(Double.lt_not_nan h).2] at hn
      exact absurd hn (by decide)
    · exact hn
  · exact hm

/-! ## Folding `std::max` over a list -/

theorem Double.max_not_nan (a b : Double) (ha : a.isNaN = false) :
    (Double.max a b).isNaN = false := by
  unfold Double.max
  split
  · next h => exact (Double.lt_not_nan h).2
  · exact ha

theorem Double.foldl_max_ge (l : List Double) : ∀ z : Double, z.isNaN = false →
    z ≤ l.foldl Double.max z := by
  induction l with
  | nil => intro z hz; exact Double.le_refl hz
  | cons y ys ih =>
    intro z hz
    exact Double.le_trans (Double.le_max_left y hz) (ih _ (Double.max_not_nan z y hz))

theorem Double.foldl_max_upper (l : List Double) : ∀ z : Double, z.isNaN = false →
    ∀ v ∈ l, v.isNaN = false → v ≤ l.foldl Double.max z := by
  induction l with
  | nil => intro z _ v hv; exact absurd hv (List.not_mem_nil v)
  | cons y ys ih =>
    intro z hz v hv hvn
    rcases List.mem_cons.mp hv with h | h
    · subst h
      exact Double.le_trans (Double.le_max_right hz hvn)
        (Double.foldl_max_ge ys _ (Double.max_not_nan z v hz))
    · exact ih _ (Double.max_not_nan z y hz) v h hvn

theorem Double.foldl_max_mem (l : List Double) : ∀ z : Double,
    l.foldl Double.max z = z ∨ l.foldl Double.max z ∈ l := by
  induction l with
  | nil => intro z; exact Or.inl rfl
  | cons y ys ih =>
    intro z
    rcases ih (Double.max z y) with h | h
    · rcases Double.max_eq_or z y with h2 | h2
      · exact Or.inl (by rw [List.foldl_cons, h, h2])
      · exact Or.inr (by rw [List.foldl_cons, h, h2]; exact List.mem_cons_self y ys)
    · exact Or.inr (List.mem_cons_of_mem y h)

/-! ## Single steps of the callback -/

theorem step_measuring (st : Statics) (s : Sample)
    (h : st.state = timer_state.MEASURING_STARTING_POSITION) :
    step st s =
      ({ state := timer_state.WAITING_FOR_START
         max_speed := Double.zero
         staring_pos := ⟨s.msg.position.x, s.msg.position.y⟩
         start_time := st.start_time }, [logWaiting]) := by
  simp [step, callback_odom, h]

theorem step_waiting_far (st : Statics) (s : Sample)
    (h : st.state = timer_state.WAITING_FOR_START)
    (hd : start_detection < distance_from_start s.msg st.staring_pos) :
    step st s =
      ({ state := timer_state.RUNNING
         max_speed := st.max_speed
         staring_pos := st.staring_pos
         start_time := s.now }, [logStart]) := by
  simp [step, callback_odom, h, hd]

theorem step_waiting_near (st : Statics) (s : Sample)
    (h : st.state = timer_state.WAITING_FOR_START)
    (hd : ¬ start_detection < distance_from_start s.msg st.staring_pos) :
    step st s = (st, []) := by
  simp [step, callback_odom, h, hd]

theorem step_running_grace (st : Statics) (s : Sample)
    (h : st.state = timer_state.RUNNING)
    (hel : ¬ Duration.ofSec 5 < Time.sub s.now st.start_time) :
    step st s = (st, []) := by
  simp [step, callback_odom, h, hel]

theorem step_running_goal (st : Statics) (s : Sample)
    (h : st.state = timer_state.RUNNING)
    (hel : Duration.ofSec 5 < Time.sub s.now st.start_time)
    (hd : distance_from_start s.msg st.staring_pos < goal_detection) :
    step st s =
      ({ state := timer_state.WAITING_FOR_RESTART
         max_speed := Double.max st.max_speed (speed s.msg)
         staring_pos := st.staring_pos
         start_time := st.start_time },
       goalLogs (Time.sub s.now st.start_time) (Double.max st.max_speed (speed s.msg))) := by
  simp [step, callback_odom, h, hel, hd]

theorem step_running_away (st : Statics) (s : Sample)
    (h : st.state = timer_state.RUNNING)
    (hel : Duration.ofSec 5 < Time.sub s.now st.start_time)
    (hd : ¬ distance_from_start s.msg st.staring_pos < goal_detection) :
    step st s =
      ({ state := timer_state.RUNNING
         max_speed := Double.max st.max_speed (speed s.msg)
         staring_pos := st.staring_pos
         start_time := st.start_time }, []) := by
  simp [step, callback_odom, h, hel, hd]

theorem step_restart (st : Statics) (s : Sample)
    (h : st.state = timer_state.WAITING_FOR_RESTART) :
    step st s = (st, []) := by
  simp [step, callback_odom, h]

theorem run_nil (st : Statics) : run st [] = (st, []) := rfl

theorem run_cons (st : Statics) (s : Sample) (rest : List Sample) :
    run st (s :: rest) =
      ((run (step st s).1 rest).1, (step st s).2 ++ (run (step st s).1 rest).2) := rfl

theorem run_append (st : Statics) (xs ys : List Sample) :
    run st (xs ++ ys) =
      ((run (run st xs).1 ys).1, (run st xs).2 ++ (run (run st xs).1 ys).2) := by
  induction xs generalizing st with
  | nil => simp [run_nil]
  | cons x xs ih => simp [run_cons, ih, List.append_assoc]

/-- A run through samples that each leave the statics alone and log nothing. -/
theorem run_idle (st : Statics) (xs : List Sample)
    (h : ∀ x ∈ xs, step st x = (st, [])) : run st xs = (st, []) := by
  induction xs with
  | nil => rfl
  | cons x xs ih =>
    have hx := h x (List.mem_cons_self x xs)
    have hxs := ih (fun y hy => h y (List.mem_cons_of_mem x hy))
    simp [run_cons, hx, hxs]

/-! ## Runs from the initial statics -/

theorem run_capture (s0 : Sample) (rest : List Sample) :
    run Statics.initial (s0 :: rest) =
      ((run (afterCapture s0) rest).1, logWaiting :: (run (afterCapture s0) rest).2) := by
  rw [run_cons, step_measuring Statics.initial s0 rfl]
  rfl

theorem run_waiting_idle (st : Statics) (pre : List Sample)
    (h : st.state = timer_state.WAITING_FOR_START)
    (hpre : ∀ p ∈ pre, ¬ start_detection < distance_from_start p.msg st.staring_pos) :
    run st pre = (st, []) :=
  run_idle st pre (fun p hp => step_waiting_near st p h (hpre p hp))

theorem run_start (s0 : Sample) (pre : List Sample) (sStart : Sample) (rest : List Sample)
    (hpre : ∀ p ∈ pre, ¬ start_detection <
      distance_from_start p.msg ⟨s0.msg.position.x, s0.msg.position.y⟩)
    (hs : start_detection <
      distance_from_start sStart.msg ⟨s0.msg.position.x, s0.msg.position.y⟩) :
    run Statics.initial (s0 :: (pre ++ sStart :: rest)) =
      ((run (afterStart s0 sStart) rest).1,
        logWaiting :: logStart :: (run (afterStart s0 sStart) rest).2) := by
  rw [run_capture, run_append, run_waiting_idle (afterCapture s0) pre rfl hpre, run_cons,
    step_waiting_far (afterCapture s0) sStart rfl hs]
  rfl

theorem run_running_idle (mid : List Sample) : ∀ (st : Statics),
    st.state = timer_state.RUNNING →
    (∀ p ∈ mid, ¬ (Duration.ofSec 5 < Time.sub p.now st.start_time ∧
      distance_from_start p.msg st.staring_pos < goal_detection)) →
    (run st mid).1.state = timer_state.RUNNING ∧
    (run st mid).1.staring_pos = st.staring_pos ∧
    (run st mid).1.start_time = st.start_time ∧
    (run st mid).2 = [] := by
  induction mid with
  | nil => intro st h _; exact ⟨h, rfl, rfl, rfl⟩
  | cons x xs ih =>
    intro st h hmid
    have hx := hmid x (List.mem_cons_self x xs)
    have hxs : ∀ p ∈ xs, ¬ (Duration.ofSec 5 < Time.sub p.now st.start_time ∧
        distance_from_start p.msg st.staring_pos < goal_detection) :=
      fun p hp => hmid p (List.mem_cons_of_mem x hp)
    by_cases hel : Duration.ofSec 5 < Time.sub x.now st.start_time
    · have hd : ¬ distance_from_start x.msg st.staring_pos < goal_detection :=
        fun hd => hx ⟨hel, hd⟩
      rw [run_cons, step_running_away st x h hel hd]
      have := ih { state := timer_state.RUNNING
                   max_speed := Double.max st.max_speed (speed x.msg)
                   staring_pos := st.staring_pos
                   start_time := st.start_time } rfl hxs
      simpa using this
    · rw [run_cons, step_running_grace st x h hel]
      have := ih st h hxs
      simpa using this

/-- Once the start has been detected, no later sample changes `start_time`. -/
theorem run_start_time (xs : List Sample) : ∀ (st : Statics),
    st.state = timer_state.RUNNING ∨ st.state = timer_state.WAITING_FOR_RESTART →
    (run st xs).1.start_time = st.start_time := by
  induction xs with
  | nil => intro st _; rfl
  | cons x xs ih =>
    intro st h
    rw [run_cons]
    rcases h with h | h
    · by_cases hel : Duration.ofSec 5 < Time.sub x.now st.start_time
      · by_cases hd : distance_from_start x.msg st.staring_pos < goal_detection
        · rw [step_running_goal st x h hel hd]
          exact ih _ (Or.inr rfl)
        · rw [step_running_away st x h hel hd]
          exact ih _ (Or.inl rfl)
      · rw [step_running_grace st x h hel]
        exact ih st (Or.inl h)
    · rw [step_restart st x h]
      exact ih st (Or.inr h)

/-- A single call changes `start_time` only on the start transition. -/
theorem step_start_time (st : Statics) (s : Sample)
    (h : (step st s).1.start_time ≠ st.start_time) :
    st.state = timer_state.WAITING_FOR_START ∧
    (step st s).1.state = timer_state.RUNNING ∧
    (step st s).1.start_time = s.now := by
  by_cases h1 : st.state = timer_state.MEASURING_STARTING_POSITION
  · rw [step_measuring st s h1] at h
    exact absurd rfl h
  by_cases h2 : st.state = timer_state.WAITING_FOR_START
  · by_cases hd : start_detection < distance_from_start s.msg st.staring_pos
    · rw [step_waiting_far st s h2 hd]
      exact ⟨h2, rfl, rfl⟩
    · rw [step_waiting_near st s h2 hd] at h
      exact absurd rfl h
  by_cases h3 : st.state = timer_state.RUNNING
  · by_cases hel : Duration.ofSec 5 < Time.sub s.now st.start_time
    · by_cases hd : distance_from_start s.msg st.staring_pos < goal_detection
      · rw [step_running_goal st s h3 hel hd] at h
        exact absurd rfl h
      · rw [step_running_away st s h3 hel hd] at h
        exact absurd rfl h
    · rw [step_running_grace st s h3 hel] at h
      exact absurd rfl h
  · have : step st s = (st, []) := by simp [step, callback_odom, h1, h2, h3]
    rw [this] at h
    exact absurd rfl h

/-- Every sequence of samples is empty, or an origin sample followed by
samples that do not trigger the start, or that followed by a start sample and
samples that do not trigger the goal, or that followed by a goal sample and
arbitrary further samples. -/
theorem run_shape (ss : List Sample) :
    ss = [] ∨
    (∃ (s0 : Sample) (pre : List Sample), ss = s0 :: pre ∧
      (∀ p ∈ pre, ¬ start_detection <
        distance_from_start p.msg ⟨s0.msg.position.x, s0.msg.position.y⟩)) ∨
    (∃ (s0 : Sample) (pre : List Sample) (sStart : Sample) (mid : List Sample),
      ss = s0 :: (pre ++ sStart :: mid) ∧
      (∀ p ∈ pre, ¬ start_detection <
        distance_from_start p.msg ⟨s0.msg.position.x, s0.msg.position.y⟩) ∧
      start_detection <
        distance_from_start sStart.msg ⟨s0.msg.position.x, s0.msg.position.y⟩ ∧
      (∀ p ∈ mid, ¬ (Duration.ofSec 5 < Time.sub p.now sStart.now ∧
        distance_from_start p.msg ⟨s0.msg.position.x, s0.msg.position.y⟩ < goal_detection))) ∨
    (∃ (s0 : Sample) (pre : List Sample) (sStart : Sample) (mid : List Sample)
        (sGoal : Sample) (post : List Sample),
      ss = s0 :: (pre ++ sStart :: (mid ++ sGoal :: post)) ∧
      (∀ p ∈ pre, ¬ start_detection <
        distance_from_start p.msg ⟨s0.msg.position.x, s0.msg.position.y⟩) ∧
      start_detection <
        distance_from_start sStart.msg ⟨s0.msg.position.x, s0.msg.position.y⟩ ∧
      (∀ p ∈ mid, ¬ (Duration.ofSec 5 < Time.sub p.now sStart.now ∧
        distance_from_start p.msg ⟨s0.msg.position.x, s0.msg.position.y⟩ < goal_detection)) ∧
      Duration.ofSec 5 < Time.sub sGoal.now sStart.now ∧
      distance_from_start sGoal.msg ⟨s0.msg.position.x, s0.msg.position.y⟩ <
        goal_detection) := by
  induction ss using List.reverseRecOn with
  | nil => exact Or.inl rfl
  | append_singleton xs x ih =>
    right
    rcases ih with h | ⟨s0, pre, rfl, hpre⟩ | ⟨s0, pre, sStart, mid, rfl, hpre, hs, hmid⟩ |
      ⟨s0, pre, sStart, mid, sGoal, post, rfl, hpre, hs, hmid, hel, hd⟩
    · subst h
      exact Or.inl ⟨x, [], rfl, fun p hp => absurd hp (List.not_mem_nil p)⟩
    · by_cases hx : start_detection <
          distance_from_start x.msg ⟨s0.msg.position.x, s0.msg.position.y⟩
      · exact Or.inr (Or.inl ⟨s0, pre, x, [], rfl, hpre, hx,
          fun p hp => absurd hp (List.not_mem_nil p)⟩)
      · refine Or.inl ⟨s0, pre ++ [x], rfl, fun p hp => ?_⟩
        rcases List.mem_append.mp hp with hp | hp
        · exact hpre p hp
        · rw [List.mem_singleton.mp hp]; exact hx
    · by_cases hx : Duration.ofSec 5 < Time.sub x.now sStart.now ∧
          distance_from_start x.msg ⟨s0.msg.position.x, s0.msg.position.y⟩ < goal_detection
      · exact Or.inr (Or.inr ⟨s0, pre, sStart, mid, x, [], by simp, hpre, hs, hmid, hx.1, hx.2⟩)
      · refine Or.inr (Or.inl ⟨s0, pre, sStart, mid ++ [x], by simp, hpre, hs, fun p hp => ?_⟩)
        rcases List.mem_append.mp hp with hp | hp
        · exact hmid p hp
        · rw [List.mem_singleton.mp hp]; exact hx
    · exact Or.inr (Or.inr ⟨s0, pre, sStart, mid, sGoal, post ++ [x], by simp, hpre, hs, hmid,
        hel, hd⟩)

/-- A run from the initial statics that ends in WAITING_FOR_RESTART consists of
an origin sample, samples that do not trigger the start, a start sample,
samples that do not trigger the goal, a goal sample, and further samples. -/
theorem run_restart_shape (ss : List Sample)
    (h : (run Statics.initial ss).1.state = timer_state.WAITING_FOR_RESTART) :
    ∃ (s0 : Sample) (pre : List Sample) (sStart : Sample) (mid : List Sample)
        (sGoal : Sample) (post : List Sample),
      ss = s0 :: (pre ++ sStart :: (mid ++ sGoal :: post)) ∧
      (∀ p ∈ pre, ¬ start_detection <
        distance_from_start p.msg ⟨s0.msg.position.x, s0.msg.position.y⟩) ∧
      start_detection <
        distance_from_start sStart.msg ⟨s0.msg.position.x, s0.msg.position.y⟩ ∧
      (∀ p ∈ mid, ¬ (Duration.ofSec 5 < Time.sub p.now sStart.now ∧
        distance_from_start p.msg ⟨s0.msg.position.x, s0.msg.position.y⟩ < goal_detection)) ∧
      Duration.ofSec 5 < Time.sub sGoal.now sStart.now ∧
      distance_from_start sGoal.msg ⟨s0.msg.position.x, s0.msg.position.y⟩ <
        goal_detection := by
  rcases run_shape ss with h1 | ⟨s0, pre, h2, hpre⟩ | ⟨s0, pre, sStart, mid, h3, hpre, hs, hmid⟩ | h4
  · subst h1
    exact absurd h (by decide)
  · subst h2
    rw [run_capture, run_waiting_idle (afterCapture s0) pre rfl hpre] at h
    cases h
  · subst h3
    rw [run_start s0 pre sStart mid hpre hs] at h
    have hr := (run_running_idle mid (afterStart s0 sStart) rfl hmid).1
    change (run (afterStart s0 sStart) mid).1.state = timer_state.WAITING_FOR_RESTART at h
    rw [hr] at h
    cases h
  · exact h4

/-- The five ways a call of the callback can go. -/
theorem step_cases (st : Statics) (s : Sample) :
    (st.state = timer_state.MEASURING_STARTING_POSITION ∧
      step st s =
        ({ state := timer_state.WAITING_FOR_START
           max_speed := Double.zero
           staring_pos := ⟨s.msg.position.x, s.msg.position.y⟩
           start_time := st.start_time }, [logWaiting])) ∨
    (st.state = timer_state.WAITING_FOR_START ∧
      start_detection < distance_from_start s.msg st.staring_pos ∧
      step st s =
        ({ state := timer_state.RUNNING
           max_speed := st.max_speed
           staring_pos := st.staring_pos
           start_time := s.now }, [logStart])) ∨
    (st.state = timer_state.RUNNING ∧
      Duration.ofSec 5 < Time.sub s.now st.start_time ∧
      distance_from_start s.msg st.staring_pos < goal_detection ∧
      step st s =
        ({ state := timer_state.WAITING_FOR_RESTART
           max_speed := Double.max st.max_speed (speed s.msg)
           staring_pos := st.staring_pos
           start_time := st.start_time },
         goalLogs (Time.sub s.now st.start_time) (Double.max st.max_speed (speed s.msg)))) ∨
    (st.state = timer_state.RUNNING ∧
      Duration.ofSec 5 < Time.sub s.now st.start_time ∧
      ¬ distance_from_start s.msg st.staring_pos < goal_detection ∧
      step st s =
        ({ state := timer_state.RUNNING
           max_speed := Double.max st.max_speed (speed s.msg)
           staring_pos := st.staring_pos
           start_time := st.start_time }, [])) ∨
    (st.state ≠ timer_state.MEASURING_STARTING_POSITION ∧
      ¬ (st.state = timer_state.WAITING_FOR_START ∧
        start_detection < distance_from_start s.msg st.staring_pos) ∧
      ¬ (st.state = timer_state.RUNNING ∧
        Duration.ofSec 5 < Time.sub s.now st.start_time) ∧
      step st s = (st, [])) := by
  by_cases h1 : st.state = timer_state.MEASURING_STARTING_POSITION
  · exact Or.inl ⟨h1, step_measuring st s h1⟩
  by_cases h2 : st.state = timer_state.WAITING_FOR_START
  · by_cases hd : start_detection < distance_from_start s.msg st.staring_pos
    · exact Or.inr (Or.inl ⟨h2, hd, step_waiting_far st s h2 hd⟩)
    · refine Or.inr (Or.inr (Or.inr (Or.inr ⟨h1, fun h => hd h.2, fun h => ?_,
        step_waiting_near st s h2 hd⟩)))
      rw [h2] at h
      exact absurd h.1 (by decide)
  by_cases h3 : st.state = timer_state.RUNNING
  · by_cases hel : Duration.ofSec 5 < Time.sub s.now st.start_time
    · by_cases hd : distance_from_start s.msg st.staring_pos < goal_detection
      · exact Or.inr (Or.inr (Or.inl ⟨h3, hel, hd, step_running_goal st s h3 hel hd⟩))
      · exact Or.inr (Or.inr (Or.inr (Or.inl ⟨h3, hel, hd, step_running_away st s h3 hel hd⟩)))
    · exact Or.inr (Or.inr (Or.inr (Or.inr ⟨h1, fun h => h2 h.1, fun h => hel h.2,
        step_running_grace st s h3 hel⟩)))
  · refine Or.inr (Or.inr (Or.inr (Or.inr ⟨h1, fun h => h2 h.1, fun h => h3 h.1, ?_⟩)))
    simp [step, callback_odom, h1, h2, h3]

/-! ## Invariants of runs -/

/-- Outside the initial phase a call keeps the origin and does not return to
the initial phase. -/
theorem step_staring_pos (st : Statics) (s : Sample)
    (h : st.state ≠ timer_state.MEASURING_STARTING_POSITION) :
    (step st s).1.staring_pos = st.staring_pos ∧
    (step st s).1.state ≠ timer_state.MEASURING_STARTING_POSITION := by
  rcases step_cases st s with ⟨h1, _⟩ | ⟨_, _, e⟩ | ⟨_, _, _, e⟩ | ⟨_, _, _, e⟩ | ⟨_, _, _, e⟩
  · exact absurd h1 h
  · rw [e]; exact ⟨rfl, by simp⟩
  · rw [e]; exact ⟨rfl, by simp⟩
  · rw [e]; exact ⟨rfl, by simp⟩
  · rw [e]; exact ⟨rfl, h⟩

theorem run_staring_pos (xs : List Sample) : ∀ (st : Statics),
    st.state ≠ timer_state.MEASURING_STARTING_POSITION →
    (run st xs).1.staring_pos = st.staring_pos ∧
    (run st xs).1.state ≠ timer_state.MEASURING_STARTING_POSITION := by
  induction xs with
  | nil => intro st h; exact ⟨rfl, h⟩
  | cons x xs ih =>
    intro st h
    have hs := step_staring_pos st x h
    have hr := ih (step st x).1 hs.2
    rw [run_cons]
    exact ⟨hr.1.trans hs.1, hr.2⟩

/-- A call never produces the state GOAL_DETECTED. -/
theorem step_not_goal_detected (st : Statics) (s : Sample)
    (h : st.state ≠ timer_state.GOAL_DETECTED) :
    (step st s).1.state ≠ timer_state.GOAL_DETECTED := by
  rcases step_cases st s with ⟨_, e⟩ | ⟨_, _, e⟩ | ⟨_, _, _, e⟩ | ⟨_, _, _, e⟩ | ⟨_, _, _, e⟩
  · rw [e]; simp
  · rw [e]; simp
  · rw [e]; simp
  · rw [e]; simp
  · rw [e]; exact h

theorem run_not_goal_detected (xs : List Sample) : ∀ (st : Statics),
    st.state ≠ timer_state.GOAL_DETECTED →
    (run st xs).1.state ≠ timer_state.GOAL_DETECTED := by
  induction xs with
  | nil => intro st h; exact h
  | cons x xs ih =>
    intro st h
    rw [run_cons]
    exact ih (step st x).1 (step_not_goal_detected st x h)

/-- A result line logged by a call carries the elapsed time of that call,
which is above 5 s, and the `max_speed` the call stores; the call was made in
RUNNING and ends in WAITING_FOR_RESTART. -/
theorem step_result_line (st : Statics) (s : Sample) (d : Duration) (ms : Double)
    (h : logResult d ms ∈ (step st s).2) :
    st.state = timer_state.RUNNING ∧
    d = Time.sub s.now st.start_time ∧
    Duration.ofSec 5 < d ∧
    ms = (step st s).1.max_speed ∧
    (step st s).1.state = timer_state.WAITING_FOR_RESTART := by
  rcases step_cases st s with ⟨_, e⟩ | ⟨_, _, e⟩ | ⟨h3, hel, _, e⟩ | ⟨_, _, _, e⟩ | ⟨_, _, _, e⟩
  · rw [e] at h; simp [logResult, logWaiting] at h
  · rw [e] at h; simp [logResult, logStart] at h
  · rw [e] at h ⊢
    simp [goalLogs, logResult, logGoal, logRestart] at h
    obtain ⟨hd, hm⟩ := h
    subst hd
    subst hm
    exact ⟨h3, rfl, hel, rfl, rfl⟩
  · rw [e] at h; simp at h
  · rw [e] at h; simp at h

theorem run_result_line (xs : List Sample) : ∀ (st : Statics) (d : Duration) (ms : Double),
    logResult d ms ∈ (run st xs).2 → Duration.ofSec 5 < d := by
  induction xs with
  | nil => intro st d ms h; simp [run_nil] at h
  | cons x xs ih =>
    intro st d ms h
    rw [run_cons] at h
    rcases List.mem_append.mp h with h | h
    · exact (step_result_line st x d ms h).2.2.1
    · exact ih _ d ms h

/-- In RUNNING, samples that do not trigger the goal fold the speeds of those
read after the grace period into `max_speed`. -/
theorem run_running_max (mid : List Sample) : ∀ (st : Statics),
    st.state = timer_state.RUNNING →
    (∀ p ∈ mid, ¬ (Duration.ofSec 5 < Time.sub p.now st.start_time ∧
      distance_from_start p.msg st.staring_pos < goal_detection)) →
    (run st mid).1.max_speed =
      ((afterGrace st.start_time mid).map (fun p => speed p.msg)).foldl Double.max
        st.max_speed := by
  induction mid with
  | nil => intro st _ _; rfl
  | cons x xs ih =>
    intro st h hmid
    have hx := hmid x (List.mem_cons_self x xs)
    have hxs : ∀ p ∈ xs, ¬ (Duration.ofSec 5 < Time.sub p.now st.start_time ∧
        distance_from_start p.msg st.staring_pos < goal_detection) :=
      fun p hp => hmid p (List.mem_cons_of_mem x hp)
    by_cases hel : Duration.ofSec 5 < Time.sub x.now st.start_time
    · have hd : ¬ distance_from_start x.msg st.staring_pos < goal_detection :=
        fun hd => hx ⟨hel, hd⟩
      have hf : afterGrace st.start_time (x :: xs) = x :: afterGrace st.start_time xs := by
        simp [afterGrace, hel]
      rw [run_cons, step_running_away st x h hel hd, hf]
      exact ih { state := timer_state.RUNNING
                 max_speed := Double.max st.max_speed (speed x.msg)
                 staring_pos := st.staring_pos
                 start_time := st.start_time } rfl hxs
    · have hf : afterGrace st.start_time (x :: xs) = afterGrace st.start_time xs := by
        simp [afterGrace, hel]
      rw [run_cons, step_running_grace st x h hel, hf]
      exact ih st h hxs

/-- A call keeps `max_speed` at least zero, and a result line it logs carries
a `max_speed` at least zero. -/
theorem step_max_speed_nonneg (st : Statics) (s : Sample)
    (h : Double.zero ≤ st.max_speed) :
    Double.zero ≤ (step st s).1.max_speed ∧
    ∀ (d : Duration) (ms : Double), logResult d ms ∈ (step st s).2 → Double.zero ≤ ms := by
  have h1 : Double.zero ≤ (step st s).1.max_speed := by
    rcases step_cases st s with ⟨_, e⟩ | ⟨_, _, e⟩ | ⟨_, _, _, e⟩ | ⟨_, _, _, e⟩ | ⟨_, _, _, e⟩
    · rw [e]; exact Double.le_refl rfl
    · rw [e]; exact h
    · rw [e]; exact Double.zero_le_max_sqrt _ _ h
    · rw [e]; exact Double.zero_le_max_sqrt _ _ h
    · rw [e]; exact h
  refine ⟨h1, fun d ms hmem => ?_⟩
  rw [(step_result_line st s d ms hmem).2.2.2.1]
  exact h1

theorem run_max_speed_nonneg (xs : List Sample) : ∀ (st : Statics),
    Double.zero ≤ st.max_speed →
    Double.zero ≤ (run st xs).1.max_speed ∧
    ∀ (d : Duration) (ms : Double), logResult d ms ∈ (run st xs).2 → Double.zero ≤ ms := by
  induction xs with
  | nil =>
    intro st h
    exact ⟨h, fun d ms hmem => by simp [run_nil] at hmem⟩
  | cons x xs ih =>
    intro st h
    have hs := step_max_speed_nonneg st x h
    have hr := ih (step st x).1 hs.1
    rw [run_cons]
    refine ⟨hr.1, fun d ms hmem => ?_⟩
    rcases List.mem_append.mp hmem with hm | hm
    · exact hs.2 d ms hm
    · exact hr.2 d ms hm

/-! ## The claims -/

/-- Claim C1: a sample handled in MEASURING_STARTING_POSITION, whatever its
position, velocity and time, moves the timer to WAITING_FOR_START, sets
`max_speed` to 0, stores the sample's `(x, y)` as the origin, leaves
`start_time` alone and emits exactly the one line "Waiting for car to
start...". -/
theorem C1_measuring_captures_origin (st : Statics) (s : Sample)
    (h : st.state = timer_state.MEASURING_STARTING_POSITION) :
    (step st s).1.state = timer_state.WAITING_FOR_START ∧
    (step st s).1.max_speed = Double.zero ∧
    (step st s).1.staring_pos = ⟨s.msg.position.x, s.msg.position.y⟩ ∧
    (step st s).1.start_time = st.start_time ∧
    (step st s).2 = [⟨Level.INFO, [Piece.str "Waiting for car to start..."]⟩] := by
  rw [step_measuring st s h]
  simp [logWaiting]

theorem C1_measuring_captures_origin_witness :
    Statics.initial.state = timer_state.MEASURING_STARTING_POSITION ∧
    (step Statics.initial
        (sampleAt 7 (Double.ofDecimal 15 1) (Double.ofDecimal 25 1) (Double.ofDecimal 3 0))).1 =
      { state := timer_state.WAITING_FOR_START, max_speed := Double.zero,
        staring_pos := ⟨Double.ofDecimal 15 1, Double.ofDecimal 25 1⟩, start_time := ⟨0⟩ } ∧
    (step Statics.initial
        (sampleAt 7 (Double.ofDecimal 15 1) (Double.ofDecimal 25 1) (Double.ofDecimal 3 0))).2 =
      [⟨Level.INFO, [Piece.str "Waiting for car to start..."]⟩] := by
  have h := C1_measuring_captures_origin Statics.initial
    (sampleAt 7 (Double.ofDecimal 15 1) (Double.ofDecimal 25 1) (Double.ofDecimal 3 0)) rfl
  refine ⟨rfl, ?_, h.2.2.2.2⟩
  rw [step_measuring _ _ rfl]
  rfl

/-- Claim C2: feed a fresh timer the origin sample `s0`, then samples `pre`
none of which has a planar distance from the origin above 0.1, then a sample
`sStart` whose distance is above 0.1.  After `s0` and any number of the
samples of `pre` the timer is still in WAITING_FOR_START and only the
waiting line has been logged; with `sStart` it is in RUNNING, the start line
has been logged and `start_time` is the clock reading of `sStart`. -/
theorem C2_start_at_first_far_sample (s0 : Sample) (pre : List Sample) (sStart : Sample)
    (hpre : ∀ p ∈ pre, ¬ start_detection <
      distance_from_start p.msg ⟨s0.msg.position.x, s0.msg.position.y⟩)
    (hs : start_detection <
      distance_from_start sStart.msg ⟨s0.msg.position.x, s0.msg.position.y⟩) :
    (∀ k : Nat, run Statics.initial (s0 :: pre.take k) =
      ({ state := timer_state.WAITING_FOR_START
         max_speed := Double.zero
         staring_pos := ⟨s0.msg.position.x, s0.msg.position.y⟩
         start_time := ⟨0⟩ }, [logWaiting])) ∧
    run Statics.initial (s0 :: (pre ++ [sStart])) =
      ({ state := timer_state.RUNNING
         max_speed := Double.zero
         staring_pos := ⟨s0.msg.position.x, s0.msg.position.y⟩
         start_time := sStart.now }, [logWaiting, logStart]) := by
  constructor
  · intro k
    rw [run_capture, run_waiting_idle (afterCapture s0) (pre.take k) rfl
      (fun p hp => hpre p (List.mem_of_mem_take hp))]
    rfl
  · rw [run_start s0 pre sStart [] hpre hs]
    rfl

theorem C2_start_at_first_far_sample_witness :
    (∀ k : Nat, (run Statics.initial (exOrigin :: exNear.take k)).1.state =
      timer_state.WAITING_FOR_START) ∧
    run Statics.initial (exOrigin :: (exNear ++ [exStart])) =
      ({ state := timer_state.RUNNING
         max_speed := Double.zero
         staring_pos := ⟨Double.ofDecimal 1 0, Double.ofDecimal 2 0⟩
         start_time := ⟨4000000000⟩ }, [logWaiting, logStart]) := by
  have h := C2_start_at_first_far_sample exOrigin exNear exStart (by decide) (by decide)
  exact ⟨fun k => by rw [h.1 k], h.2⟩

/-- Claim C3: in WAITING_FOR_START, a sample whose computed planar distance
`sqrt(dx*dx + dy*dy)` from the stored origin is at most 0.1 (0.1 itself
included) leaves the statics unchanged and logs nothing. -/
theorem C3_waiting_near_is_noop (st : Statics) (s : Sample)
    (h : st.state = timer_state.WAITING_FOR_START)
    (hd : Double.sqrt
        ((s.msg.position.x - st.staring_pos.x) * (s.msg.position.x - st.staring_pos.x) +
         (s.msg.position.y - st.staring_pos.y) * (s.msg.position.y - st.staring_pos.y))
      ≤ Double.ofDecimal 1 1) :
    step st s = (st, []) :=
  step_waiting_near st s h (Double.not_lt_of_le hd)

theorem C3_waiting_near_is_noop_witness :
    distance_from_start
        (sampleAt 9 (Double.ofDecimal 1 1) Double.zero (Double.ofDecimal 4 0)).msg
        (staticsAtOrigin timer_state.WAITING_FOR_START 0).staring_pos = Double.ofDecimal 1 1 ∧
    step (staticsAtOrigin timer_state.WAITING_FOR_START 0)
        (sampleAt 9 (Double.ofDecimal 1 1) Double.zero (Double.ofDecimal 4 0)) =
      (staticsAtOrigin timer_state.WAITING_FOR_START 0, []) :=
  ⟨by decide,
   C3_waiting_near_is_noop (staticsAtOrigin timer_state.WAITING_FOR_START 0)
     (sampleAt 9 (Double.ofDecimal 1 1) Double.zero (Double.ofDecimal 4 0)) rfl (by decide)⟩

/-- Claim C4: in RUNNING, a sample whose elapsed time `now - start_time` is at
most 5.0 s (5.0 s itself included) leaves the statics unchanged, whatever its
velocity and position, and logs nothing: `max_speed` is not updated and no
goal is detected. -/
theorem C4_running_grace_is_noop (st : Statics) (s : Sample)
    (h : st.state = timer_state.RUNNING)
    (hel : Time.sub s.now st.start_time ≤ Duration.ofSec 5) :
    step st s = (st, []) :=
  step_running_grace st s h (Int.not_lt.mpr hel)

theorem C4_running_grace_is_noop_witness :
    Time.sub (sampleAt 8000000000 (Double.ofDecimal 2 1) Double.zero (Double.ofDecimal 10 0)).now
        (staticsAtOrigin timer_state.RUNNING 3000000000).start_time = Duration.ofSec 5 ∧
    distance_from_start
        (sampleAt 8000000000 (Double.ofDecimal 2 1) Double.zero (Double.ofDecimal 10 0)).msg
        (staticsAtOrigin timer_state.RUNNING 3000000000).staring_pos < goal_detection ∧
    step (staticsAtOrigin timer_state.RUNNING 3000000000)
        (sampleAt 8000000000 (Double.ofDecimal 2 1) Double.zero (Double.ofDecimal 10 0)) =
      (staticsAtOrigin timer_state.RUNNING 3000000000, []) :=
  ⟨by decide, by decide,
   C4_running_grace_is_noop (staticsAtOrigin timer_state.RUNNING 3000000000)
     (sampleAt 8000000000 (Double.ofDecimal 2 1) Double.zero (Double.ofDecimal 10 0)) rfl
     (by decide)⟩

/-- Claim C5: in RUNNING, for a sample with elapsed time above 5.0 s,
`max_speed` afterwards is `std::max` of `max_speed` before and
`sqrt(vx*vx + vy*vy + vz*vz)`; it is one of the two, it is never below the
value before, and (NaN apart) it is at least each of the two. -/
theorem C5_max_speed_update (st : Statics) (s : Sample)
    (h : st.state = timer_state.RUNNING)
    (hel : Duration.ofSec 5 < Time.sub s.now st.start_time) :
    (step st s).1.max_speed =
      Double.max st.max_speed
        (Double.sqrt (s.msg.linear.x * s.msg.linear.x + s.msg.linear.y * s.msg.linear.y +
          s.msg.linear.z * s.msg.linear.z)) ∧
    ((step st s).1.max_speed = st.max_speed ∨ (step st s).1.max_speed = speed s.msg) ∧
    ¬ (step st s).1.max_speed < st.max_speed ∧
    (st.max_speed.isNaN = false → st.max_speed ≤ (step st s).1.max_speed) ∧
    (st.max_speed.isNaN = false → (speed s.msg).isNaN = false →
      speed s.msg ≤ (step st s).1.max_speed) := by
  have hm : (step st s).1.max_speed = Double.max st.max_speed (speed s.msg) := by
    by_cases hd : distance_from_start s.msg st.staring_pos < goal_detection
    · rw [step_running_goal st s h hel hd]
    · rw [step_running_away st s h hel hd]
  rw [hm]
  exact ⟨rfl, Double.max_eq_or _ _, Double.not_max_lt_left _ _,
    fun ha => Double.le_max_left _ ha, fun ha hb => Double.le_max_right ha hb⟩

theorem C5_max_speed_update_witness :
    (step { staticsAtOrigin timer_state.RUNNING 0 with max_speed := Double.ofDecimal 2 0 }
        (Sample.mk6 6000000000 (Double.ofDecimal 1 0) Double.zero Double.zero
          (Double.ofDecimal 1 0) (Double.ofDecimal 2 0) (Double.ofDecimal 2 0))).1.max_speed
      = Double.ofDecimal 3 0 ∧
    Double.ofDecimal 2 0 ≤ Double.ofDecimal 3 0 := by
  have h := C5_max_speed_update
    { staticsAtOrigin timer_state.RUNNING 0 with max_speed := Double.ofDecimal 2 0 }
    (Sample.mk6 6000000000 (Double.ofDecimal 1 0) Double.zero Double.zero
      (Double.ofDecimal 1 0) (Double.ofDecimal 2 0) (Double.ofDecimal 2 0)) rfl (by decide)
  exact ⟨h.1.trans (by decide), by decide⟩

/-- Claim C6: feed a fresh timer the origin sample, samples `pre` that do not
trigger the start, the start sample `sStart`, then samples `mid` none of
which has both an elapsed time above 5.0 s and a planar distance from the
origin below 0.3, then a sample `sGoal` that has both.  Up to `sStart` only
the waiting line is logged; after `sStart` and any number of the samples of
`mid` the timer is in RUNNING and nothing beyond the waiting and start lines
has been logged; with `sGoal` it is in WAITING_FOR_RESTART, the three goal
lines have been logged, and both the stored and the reported `max_speed` are
`std::max` of `max_speed` before `sGoal` and the speed of `sGoal`.  Every run
that reaches WAITING_FOR_RESTART has this form. -/
theorem C6_goal_at_first_close_sample (s0 : Sample) (pre : List Sample) (sStart : Sample)
    (mid : List Sample) (sGoal : Sample)
    (hpre : ∀ p ∈ pre, ¬ start_detection <
      distance_from_start p.msg ⟨s0.msg.position.x, s0.msg.position.y⟩)
    (hs : start_detection <
      distance_from_start sStart.msg ⟨s0.msg.position.x, s0.msg.position.y⟩)
    (hmid : ∀ p ∈ mid, ¬ (Duration.ofSec 5 < Time.sub p.now sStart.now ∧
      distance_from_start p.msg ⟨s0.msg.position.x, s0.msg.position.y⟩ < goal_detection))
    (hel : Duration.ofSec 5 < Time.sub sGoal.now sStart.now)
    (hd : distance_from_start sGoal.msg ⟨s0.msg.position.x, s0.msg.position.y⟩ <
      goal_detection) :
    (∀ k : Nat,
      (run Statics.initial (s0 :: pre.take k)).1.state = timer_state.WAITING_FOR_START ∧
      (run Statics.initial (s0 :: pre.take k)).2 = [logWaiting]) ∧
    (∀ k : Nat,
      (run Statics.initial (s0 :: (pre ++ sStart :: mid.take k))).1.state =
        timer_state.RUNNING ∧
      (run Statics.initial (s0 :: (pre ++ sStart :: mid.take k))).2 =
        [logWaiting, logStart]) ∧
    run Statics.initial (s0 :: (pre ++ sStart :: (mid ++ [sGoal]))) =
      ({ state := timer_state.WAITING_FOR_RESTART
         max_speed := Double.max
           (run Statics.initial (s0 :: (pre ++ sStart :: mid))).1.max_speed (speed sGoal.msg)
         staring_pos := ⟨s0.msg.position.x, s0.msg.position.y⟩
         start_time := sStart.now },
       [logWaiting, logStart, logGoal,
        logResult (Time.sub sGoal.now sStart.now)
          (Double.max (run Statics.initial (s0 :: (pre ++ sStart :: mid))).1.max_speed
            (speed sGoal.msg)),
        logRestart]) ∧
    (∀ ss : List Sample,
      (run Statics.initial ss).1.state = timer_state.WAITING_FOR_RESTART →
      ∃ (t0 : Sample) (before : List Sample) (tStart : Sample) (between : List Sample)
          (tGoal : Sample) (post : List Sample),
        ss = t0 :: (before ++ tStart :: (between ++ tGoal :: post)) ∧
        (∀ p ∈ before, ¬ start_detection <
          distance_from_start p.msg ⟨t0.msg.position.x, t0.msg.position.y⟩) ∧
        start_detection <
          distance_from_start tStart.msg ⟨t0.msg.position.x, t0.msg.position.y⟩ ∧
        (∀ p ∈ between, ¬ (Duration.ofSec 5 < Time.sub p.now tStart.now ∧
          distance_from_start p.msg ⟨t0.msg.position.x, t0.msg.position.y⟩ <
            goal_detection)) ∧
        Duration.ofSec 5 < Time.sub tGoal.now tStart.now ∧
        distance_from_start tGoal.msg ⟨t0.msg.position.x, t0.msg.position.y⟩ <
          goal_detection) := by
  refine ⟨?_, ?_, ?_, run_restart_shape⟩
  · intro k
    rw [run_capture, run_waiting_idle (afterCapture s0) (pre.take k) rfl
      (fun p hp => hpre p (List.mem_of_mem_take hp))]
    exact ⟨rfl, rfl⟩
  · intro k
    rw [run_start s0 pre sStart (mid.take k) hpre hs]
    have h := run_running_idle (mid.take k) (afterStart s0 sStart) rfl
      (fun p hp => hmid p (List.mem_of_mem_take hp))
    exact ⟨h.1, by rw [h.2.2.2]⟩
  · rw [run_start s0 pre sStart (mid ++ [sGoal]) hpre hs, run_start s0 pre sStart mid hpre hs,
      run_append]
    have h := run_running_idle mid (afterStart s0 sStart) rfl hmid
    have hel2 : Duration.ofSec 5 <
        Time.sub sGoal.now (run (afterStart s0 sStart) mid).1.start_time := by
      rw [h.2.2.1]; exact hel
    have hd2 : distance_from_start sGoal.msg (run (afterStart s0 sStart) mid).1.staring_pos <
        goal_detection := by
      rw [h.2.1]; exact hd
    rw [run_cons, run_nil, step_running_goal _ sGoal h.1 hel2 hd2, h.2.2.2, h.2.1, h.2.2.1]
    rfl

theorem C6_goal_at_first_close_sample_witness :
    (∀ k : Nat,
      (run Statics.initial (exOrigin :: (exNear ++ exStart :: exMid.take k))).1.state =
        timer_state.RUNNING) ∧
    run Statics.initial (exOrigin :: (exNear ++ exStart :: (exMid ++ [exGoal]))) =
      ({ state := timer_state.WAITING_FOR_RESTART
         max_speed := Double.ofDecimal 4 0
         staring_pos := ⟨Double.ofDecimal 1 0, Double.ofDecimal 2 0⟩
         start_time := ⟨4000000000⟩ },
       [logWaiting, logStart, logGoal,
        logResult ⟨8000000000⟩ (Double.ofDecimal 4 0), logRestart]) := by
  have h := C6_goal_at_first_close_sample exOrigin exNear exStart exMid exGoal
    (by decide) (by decide) (by decide) (by decide) (by decide)
  exact ⟨fun k => (h.2.1 k).1, h.2.2.1.trans (by decide)⟩

/-- Claim C7: in RUNNING, for a sample with elapsed time above 5.0 s, the goal
fires (state WAITING_FOR_RESTART, the three goal lines) exactly when the
planar distance from the origin is strictly below 0.3; otherwise the state
stays RUNNING and nothing is logged.  At distance exactly 0.3 it does not
fire, at distance 0.29 it does. -/
theorem C7_goal_iff_strictly_below (st : Statics) (s : Sample)
    (h : st.state = timer_state.RUNNING)
    (hel : Duration.ofSec 5 < Time.sub s.now st.start_time) :
    (((step st s).1.state = timer_state.WAITING_FOR_RESTART ∧
        (step st s).2 = [logGoal,
          logResult (Time.sub s.now st.start_time) (step st s).1.max_speed, logRestart]) ↔
      distance_from_start s.msg st.staring_pos < Double.ofDecimal 3 1) ∧
    (¬ distance_from_start s.msg st.staring_pos < Double.ofDecimal 3 1 →
      (step st s).1.state = timer_state.RUNNING ∧ (step st s).2 = []) ∧
    (distance_from_start s.msg st.staring_pos = Double.ofDecimal 3 1 →
      (step st s).1.state = timer_state.RUNNING ∧ (step st s).2 = []) ∧
    (distance_from_start s.msg st.staring_pos = Double.ofDecimal 29 2 →
      (step st s).1.state = timer_state.WAITING_FOR_RESTART ∧
      (step st s).2 = [logGoal,
        logResult (Time.sub s.now st.start_time) (step st s).1.max_speed, logRestart]) := by
  have hfire : distance_from_start s.msg st.staring_pos < Double.ofDecimal 3 1 →
      (step st s).1.state = timer_state.WAITING_FOR_RESTART ∧
      (step st s).2 = [logGoal,
        logResult (Time.sub s.now st.start_time) (step st s).1.max_speed, logRestart] := by
    intro hd
    rw [step_running_goal st s h hel hd]
    exact ⟨rfl, rfl⟩
  have hstay : ¬ distance_from_start s.msg st.staring_pos < Double.ofDecimal 3 1 →
      (step st s).1.state = timer_state.RUNNING ∧ (step st s).2 = [] := by
    intro hd
    rw [step_running_away st s h hel hd]
    exact ⟨rfl, rfl⟩
  refine ⟨⟨fun hg => ?_, hfire⟩, hstay, fun he => hstay ?_, fun he => hfire ?_⟩
  · by_contra hd
    rw [(hstay hd).1] at hg
    exact absurd hg.1 (by decide)
  · rw [he]; decide
  · rw [he]; decide

theorem C7_goal_iff_strictly_below_witness :
    (distance_from_start
        (sampleAt 6000000000 (Double.ofDecimal 3 1) Double.zero (Double.ofDecimal 1 0)).msg
        (staticsAtOrigin timer_state.RUNNING 0).staring_pos = goal_detection ∧
      step (staticsAtOrigin timer_state.RUNNING 0)
        (sampleAt 6000000000 (Double.ofDecimal 3 1) Double.zero (Double.ofDecimal 1 0)) =
      ({ staticsAtOrigin timer_state.RUNNING 0 with max_speed := Double.ofDecimal 1 0 }, [])) ∧
    (distance_from_start
        (sampleAt 6000000000 (Double.ofDecimal 29 2) Double.zero (Double.ofDecimal 1 0)).msg
        (staticsAtOrigin timer_state.RUNNING 0).staring_pos = Double.ofDecimal 29 2 ∧
      (step (staticsAtOrigin timer_state.RUNNING 0)
        (sampleAt 6000000000 (Double.ofDecimal 29 2) Double.zero (Double.ofDecimal 1 0))).1.state
        = timer_state.WAITING_FOR_RESTART ∧
      (step (staticsAtOrigin timer_state.RUNNING 0)
        (sampleAt 6000000000 (Double.ofDecimal 29 2) Double.zero (Double.ofDecimal 1 0))).2
        = [logGoal, logResult ⟨6000000000⟩ (Double.ofDecimal 1 0), logRestart]) := by
  have h3 := C7_goal_iff_strictly_below (staticsAtOrigin timer_state.RUNNING 0)
    (sampleAt 6000000000 (Double.ofDecimal 3 1) Double.zero (Double.ofDecimal 1 0))
    rfl (by decide)
  have h29 := C7_goal_iff_strictly_below (staticsAtOrigin timer_state.RUNNING 0)
    (sampleAt 6000000000 (Double.ofDecimal 29 2) Double.zero (Double.ofDecimal 1 0))
    rfl (by decide)
  have e3 := h3.2.2.1 (by decide)
  have e29 := h29.2.2.2 (by decide)
  exact ⟨⟨by decide, by decide⟩, by decide, e29.1, e29.2.trans (by decide)⟩

/-- Claim C8: in WAITING_FOR_RESTART every sample, and every sequence of
samples, leaves the statics unchanged and logs nothing; in particular the
state stays WAITING_FOR_RESTART. -/
theorem C8_restart_is_inert (st : Statics) (ss : List Sample)
    (h : st.state = timer_state.WAITING_FOR_RESTART) :
    (∀ s : Sample, step st s = (st, [])) ∧
    run st ss = (st, []) ∧
    (run st ss).1.state = timer_state.WAITING_FOR_RESTART := by
  have hrun : run st ss = (st, []) := run_idle st ss (fun x _ => step_restart st x h)
  exact ⟨fun s => step_restart st s h, hrun, by rw [hrun]; exact h⟩

theorem C8_restart_is_inert_witness :
    run (run Statics.initial (exOrigin :: (exNear ++ exStart :: (exMid ++ [exGoal])))).1 exPost =
      ((run Statics.initial (exOrigin :: (exNear ++ exStart :: (exMid ++ [exGoal])))).1, []) :=
  (C8_restart_is_inert
    (run Statics.initial (exOrigin :: (exNear ++ exStart :: (exMid ++ [exGoal])))).1 exPost
    (by decide)).2.1

/-- Claim C9: the end-to-end scenario.  The origin `(0, 0)` is captured; a
sample at planar distance 0.15 read at t = 0 s starts the run with
`start_time = 0`; samples read at t in [0 s, 5 s] with speed 10 leave
`max_speed` at 0 and log nothing; a sample at t = 5.01 s, distance 0.35 and
speed 2 reports no goal and makes `max_speed` 2; a sample at t = 6 s,
distance 0.2 and speed 1 reports the goal with duration 6 s and max speed 2. -/
theorem C9_scenario (s0 sStart : Sample) (grace : List Sample) (s3 s4 : Sample)
    (h0x : s0.msg.position.x = Double.zero) (h0y : s0.msg.position.y = Double.zero)
    (h1t : sStart.now = ⟨0⟩)
    (h1d : distance_from_start sStart.msg ⟨Double.zero, Double.zero⟩ = Double.ofDecimal 15 2)
    (hg : ∀ g ∈ grace, g.now.toNSec ≤ 5000000000 ∧ speed g.msg = Double.ofDecimal 10 0)
    (h3t : s3.now = ⟨5010000000⟩)
    (h3d : distance_from_start s3.msg ⟨Double.zero, Double.zero⟩ = Double.ofDecimal 35 2)
    (h3v : speed s3.msg = Double.ofDecimal 2 0)
    (h4t : s4.now = ⟨6000000000⟩)
    (h4d : distance_from_start s4.msg ⟨Double.zero, Double.zero⟩ = Double.ofDecimal 2 1)
    (h4v : speed s4.msg = Double.ofDecimal 1 0) :
    run Statics.initial [s0, sStart] =
      ({ state := timer_state.RUNNING, max_speed := Double.zero,
         staring_pos := ⟨Double.zero, Double.zero⟩, start_time := ⟨0⟩ },
       [logWaiting, logStart]) ∧
    (∀ k : Nat, run Statics.initial (s0 :: sStart :: grace.take k) =
      ({ state := timer_state.RUNNING, max_speed := Double.zero,
         staring_pos := ⟨Double.zero, Double.zero⟩, start_time := ⟨0⟩ },
       [logWaiting, logStart])) ∧
    run Statics.initial (s0 :: sStart :: (grace ++ [s3])) =
      ({ state := timer_state.RUNNING, max_speed := Double.ofDecimal 2 0,
         staring_pos := ⟨Double.zero, Double.zero⟩, start_time := ⟨0⟩ },
       [logWaiting, logStart]) ∧
    run Statics.initial (s0 :: sStart :: (grace ++ [s3, s4])) =
      ({ state := timer_state.WAITING_FOR_RESTART, max_speed := Double.ofDecimal 2 0,
         staring_pos := ⟨Double.zero, Double.zero⟩, start_time := ⟨0⟩ },
       [logWaiting, logStart, logGoal,
        ⟨Level.INFO, [Piece.str "Time: ", Piece.toSec (Duration.ofSec 6),
          Piece.str ", max speed = ", Piece.dbl (Double.ofDecimal 2 0), Piece.str " m/s"]⟩,
        logRestart]) := by
  have hs : start_detection <
      distance_from_start sStart.msg ⟨s0.msg.position.x, s0.msg.position.y⟩ := by
    rw [h0x, h0y, h1d]; decide
  have hA : afterStart s0 sStart = staticsAtOrigin timer_state.RUNNING 0 := by
    simp [afterStart, staticsAtOrigin, h0x, h0y, h1t]
  have hrun : ∀ rest : List Sample, run Statics.initial (s0 :: sStart :: rest) =
      ((run (staticsAtOrigin timer_state.RUNNING 0) rest).1,
        logWaiting :: logStart :: (run (staticsAtOrigin timer_state.RUNNING 0) rest).2) := by
    intro rest
    have h := run_start s0 [] sStart rest (fun p hp => absurd hp (List.not_mem_nil p)) hs
    rw [hA] at h
    exact h
  have hidle : ∀ g ∈ grace,
      step (staticsAtOrigin timer_state.RUNNING 0) g =
        (staticsAtOrigin timer_state.RUNNING 0, []) := by
    intro g hgm
    apply step_running_grace _ g rfl
    have hle := (hg g hgm).1
    show ¬ ((5 : Int) * 1000000000 < (g.now.toNSec : Int) - ((0 : Nat) : Int))
    omega
  have hgrace : ∀ xs : List Sample, (∀ g ∈ xs, g ∈ grace) →
      run (staticsAtOrigin timer_state.RUNNING 0) xs =
        (staticsAtOrigin timer_state.RUNNING 0, []) :=
    fun xs hxs => run_idle _ xs (fun g hgm => hidle g (hxs g hgm))
  have h3 : step (staticsAtOrigin timer_state.RUNNING 0) s3 =
      ({ staticsAtOrigin timer_state.RUNNING 0 with max_speed := Double.ofDecimal 2 0 }, []) := by
    have hel : Duration.ofSec 5 <
        Time.sub s3.now (staticsAtOrigin timer_state.RUNNING 0).start_time := by
      rw [h3t]; decide
    have hd : ¬ distance_from_start s3.msg (staticsAtOrigin timer_state.RUNNING 0).staring_pos <
        goal_detection := by
      show ¬ distance_from_start s3.msg ⟨Double.zero, Double.zero⟩ < goal_detection
      rw [h3d]; decide
    rw [step_running_away _ s3 rfl hel hd, h3v]
    rfl
  have h4 : step { staticsAtOrigin timer_state.RUNNING 0 with max_speed := Double.ofDecimal 2 0 }
      s4 =
      ({ state := timer_state.WAITING_FOR_RESTART, max_speed := Double.ofDecimal 2 0,
         staring_pos := ⟨Double.zero, Double.zero⟩, start_time := ⟨0⟩ },
       goalLogs (Duration.ofSec 6) (Double.ofDecimal 2 0)) := by
    have hel : Duration.ofSec 5 < Time.sub s4.now
        ({ staticsAtOrigin timer_state.RUNNING 0 with
            max_speed := Double.ofDecimal 2 0 } : Statics).start_time := by
      rw [h4t]; decide
    have hd : distance_from_start s4.msg
        ({ staticsAtOrigin timer_state.RUNNING 0 with
            max_speed := Double.ofDecimal 2 0 } : Statics).staring_pos < goal_detection := by
      show distance_from_start s4.msg ⟨Double.zero, Double.zero⟩ < goal_detection
      rw [h4d]; decide
    rw [step_running_goal _ s4 rfl hel hd, h4v, h4t]
    rfl
  refine ⟨?_, ?_, ?_, ?_⟩
  · rw [hrun []]; rfl
  · intro k
    rw [hrun, hgrace (grace.take k) (fun g hgm => List.mem_of_mem_take hgm)]
    rfl
  · rw [hrun, run_append, hgrace grace (fun g hgm => hgm), run_cons, run_nil, h3]
    rfl
  · rw [hrun, run_append, hgrace grace (fun g hgm => hgm), run_cons, run_cons, run_nil, h3, h4]
    rfl

theorem C9_scenario_witness :
    run Statics.initial
      (sampleAt 0 Double.zero Double.zero Double.zero ::
       sampleAt 0 (Double.ofDecimal 15 2) Double.zero Double.zero ::
       ([sampleAt 0 (Double.ofDecimal 1 1) Double.zero (Double.ofDecimal 10 0),
         sampleAt 2500000000 (Double.ofDecimal 5 0) Double.zero (Double.ofDecimal 10 0),
         sampleAt 5000000000 Double.zero Double.zero (Double.ofDecimal 10 0)] ++
        [sampleAt 5010000000 (Double.ofDecimal 35 2) Double.zero (Double.ofDecimal 2 0),
         sampleAt 6000000000 (Double.ofDecimal 2 1) Double.zero (Double.ofDecimal 1 0)])) =
      ({ state := timer_state.WAITING_FOR_RESTART, max_speed := Double.ofDecimal 2 0,
         staring_pos := ⟨Double.zero, Double.zero⟩, start_time := ⟨0⟩ },
       [logWaiting, logStart, logGoal,
        ⟨Level.INFO, [Piece.str "Time: ", Piece.toSec (Duration.ofSec 6),
          Piece.str ", max speed = ", Piece.dbl (Double.ofDecimal 2 0), Piece.str " m/s"]⟩,
        logRestart]) :=
  (C9_scenario (sampleAt 0 Double.zero Double.zero Double.zero)
    (sampleAt 0 (Double.ofDecimal 15 2) Double.zero Double.zero)
    [sampleAt 0 (Double.ofDecimal 1 1) Double.zero (Double.ofDecimal 10 0),
     sampleAt 2500000000 (Double.ofDecimal 5 0) Double.zero (Double.ofDecimal 10 0),
     sampleAt 5000000000 Double.zero Double.zero (Double.ofDecimal 10 0)]
    (sampleAt 5010000000 (Double.ofDecimal 35 2) Double.zero (Double.ofDecimal 2 0))
    (sampleAt 6000000000 (Double.ofDecimal 2 1) Double.zero (Double.ofDecimal 1 0))
    rfl rfl rfl (by decide) (by decide) rfl (by decide) (by decide) rfl (by decide)
    (by decide)).2.2.2

/-- Claim C10: in a run of a fresh timer that reaches the goal, the duration in
the result line is the clock reading of the goal sample minus the clock
reading of the start sample.  `start_time` keeps its initial value until the
start sample, equals the clock reading of the start sample after it, and no
continuation of the run changes it again; a single call changes `start_time`
only on the transition from WAITING_FOR_START to RUNNING. -/
theorem C10_duration_and_start_time (s0 : Sample) (pre : List Sample) (sStart : Sample)
    (mid : List Sample) (sGoal : Sample)
    (hpre : ∀ p ∈ pre, ¬ start_detection <
      distance_from_start p.msg ⟨s0.msg.position.x, s0.msg.position.y⟩)
    (hs : start_detection <
      distance_from_start sStart.msg ⟨s0.msg.position.x, s0.msg.position.y⟩)
    (hmid : ∀ p ∈ mid, ¬ (Duration.ofSec 5 < Time.sub p.now sStart.now ∧
      distance_from_start p.msg ⟨s0.msg.position.x, s0.msg.position.y⟩ < goal_detection))
    (hel : Duration.ofSec 5 < Time.sub sGoal.now sStart.now)
    (hd : distance_from_start sGoal.msg ⟨s0.msg.position.x, s0.msg.position.y⟩ <
      goal_detection) :
    (∃ ms : Double,
      (run Statics.initial (s0 :: (pre ++ sStart :: (mid ++ [sGoal])))).2 =
        [logWaiting, logStart, logGoal,
         ⟨Level.INFO, [Piece.str "Time: ",
           Piece.toSec ⟨(sGoal.now.toNSec : Int) - (sStart.now.toNSec : Int)⟩,
           Piece.str ", max speed = ", Piece.dbl ms, Piece.str " m/s"]⟩,
         logRestart]) ∧
    (∀ k : Nat, (run Statics.initial (s0 :: pre.take k)).1.start_time =
      Statics.initial.start_time) ∧
    (∀ rest : List Sample,
      (run Statics.initial (s0 :: (pre ++ sStart :: rest))).1.start_time = sStart.now) ∧
    (∀ (st : Statics) (s : Sample), (step st s).1.start_time ≠ st.start_time →
      st.state = timer_state.WAITING_FOR_START ∧
      (step st s).1.state = timer_state.RUNNING ∧
      (step st s).1.start_time = s.now) := by
  refine ⟨?_, ?_, ?_, step_start_time⟩
  · refine ⟨Double.max (run (afterStart s0 sStart) mid).1.max_speed (speed sGoal.msg), ?_⟩
    rw [run_start s0 pre sStart (mid ++ [sGoal]) hpre hs, run_append]
    have h := run_running_idle mid (afterStart s0 sStart) rfl hmid
    have hel2 : Duration.ofSec 5 <
        Time.sub sGoal.now (run (afterStart s0 sStart) mid).1.start_time := by
      rw [h.2.2.1]; exact hel
    have hd2 : distance_from_start sGoal.msg (run (afterStart s0 sStart) mid).1.staring_pos <
        goal_detection := by
      rw [h.2.1]; exact hd
    rw [run_cons, run_nil, step_running_goal _ sGoal h.1 hel2 hd2, h.2.2.2, h.2.2.1]
    rfl
  · intro k
    rw [run_capture, run_waiting_idle (afterCapture s0) (pre.take k) rfl
      (fun p hp => hpre p (List.mem_of_mem_take hp))]
    rfl
  · intro rest
    rw [run_start s0 pre sStart rest hpre hs]
    exact run_start_time rest (afterStart s0 sStart) (Or.inl rfl)

theorem C10_duration_and_start_time_witness :
    (run Statics.initial (exOrigin :: (exNear ++ exStart :: (exMid ++ [exGoal])))).2 =
      [logWaiting, logStart, logGoal,
       ⟨Level.INFO, [Piece.str "Time: ", Piece.toSec (Duration.ofSec 8),
         Piece.str ", max speed = ", Piece.dbl (Double.ofDecimal 4 0), Piece.str " m/s"]⟩,
       logRestart] ∧
    (run Statics.initial
      (exOrigin :: (exNear ++ exStart :: (exMid ++ [exGoal] ++ exPost)))).1.start_time =
      ⟨4000000000⟩ := by
  have h := C10_duration_and_start_time exOrigin exNear exStart exMid exGoal
    (by decide) (by decide) (by decide) (by decide) (by decide)
  exact ⟨by decide, h.2.2.1 (exMid ++ [exGoal] ++ exPost)⟩

/-- Claim C11, as stated, fails: in RUNNING with 6 s elapsed, a sample at
distance 0.35 (at least 0.3) leaves the state RUNNING and logs nothing, and a
sample at distance 0.2 (below 0.3) ends the run with the goal lines; so the
two table rows, read literally, do not describe `callback_odom`. -/
theorem C11_table_rows_counterexample :
    (goal_detection ≤ distance_from_start
        (sampleAt 6000000000 (Double.ofDecimal 35 2) Double.zero (Double.ofDecimal 2 0)).msg
        (staticsAtOrigin timer_state.RUNNING 0).staring_pos ∧
      step (staticsAtOrigin timer_state.RUNNING 0)
        (sampleAt 6000000000 (Double.ofDecimal 35 2) Double.zero (Double.ofDecimal 2 0)) =
        ({ staticsAtOrigin timer_state.RUNNING 0 with max_speed := Double.ofDecimal 2 0 }, [])) ∧
    (distance_from_start
        (sampleAt 6000000000 (Double.ofDecimal 2 1) Double.zero (Double.ofDecimal 2 0)).msg
        (staticsAtOrigin timer_state.RUNNING 0).staring_pos < goal_detection ∧
      step (staticsAtOrigin timer_state.RUNNING 0)
        (sampleAt 6000000000 (Double.ofDecimal 2 1) Double.zero (Double.ofDecimal 2 0)) =
        ({ staticsAtOrigin timer_state.RUNNING 0 with
            max_speed := Double.ofDecimal 2 0
            state := timer_state.WAITING_FOR_RESTART },
         goalLogs (Duration.ofSec 6) (Double.ofDecimal 2 0))) ∧
    ¬ (∀ (st : Statics) (s : Sample), st.state = timer_state.RUNNING →
        Duration.ofSec 5 < Time.sub s.now st.start_time →
        (goal_detection ≤ distance_from_start s.msg st.staring_pos →
          (step st s).1.state = timer_state.WAITING_FOR_RESTART ∧
          (step st s).2 =
            goalLogs (Time.sub s.now st.start_time) (step st s).1.max_speed) ∧
        (distance_from_start s.msg st.staring_pos < goal_detection →
          (step st s).1.state = timer_state.RUNNING ∧ (step st s).2 = [])) := by
  refine ⟨⟨by decide, by decide⟩, ⟨by decide, by decide⟩, fun h => ?_⟩
  have h1 := (h (staticsAtOrigin timer_state.RUNNING 0)
    (sampleAt 6000000000 (Double.ofDecimal 35 2) Double.zero (Double.ofDecimal 2 0))
    rfl (by decide)).1 (by decide)
  exact absurd h1.1 (by decide)

/-- Claim C11, amended to the comparison of line 78: in RUNNING, for a sample
with elapsed time above 5.0 s, `max_speed` is updated first; then, if the
planar distance from the origin is below 0.3, the three goal lines with the
elapsed time and the updated `max_speed` are logged and the state becomes
WAITING_FOR_RESTART, and if the distance is at least 0.3, nothing is logged
and the state stays RUNNING. -/
theorem C11_table_rows_amended (st : Statics) (s : Sample)
    (h : st.state = timer_state.RUNNING)
    (hel : Duration.ofSec 5 < Time.sub s.now st.start_time) :
    (distance_from_start s.msg st.staring_pos < goal_detection →
      step st s =
        ({ state := timer_state.WAITING_FOR_RESTART
           max_speed := Double.max st.max_speed (speed s.msg)
           staring_pos := st.staring_pos
           start_time := st.start_time },
         [logGoal,
          logResult (Time.sub s.now st.start_time) (Double.max st.max_speed (speed s.msg)),
          logRestart])) ∧
    (goal_detection ≤ distance_from_start s.msg st.staring_pos →
      step st s =
        ({ state := timer_state.RUNNING
           max_speed := Double.max st.max_speed (speed s.msg)
           staring_pos := st.staring_pos
           start_time := st.start_time }, [])) :=
  ⟨fun hd => step_running_goal st s h hel hd,
   fun hd => step_running_away st s h hel (Double.not_lt_of_le hd)⟩

theorem C11_table_rows_amended_witness :
    step (staticsAtOrigin timer_state.RUNNING 0)
        (sampleAt 6000000000 (Double.ofDecimal 2 1) Double.zero (Double.ofDecimal 2 0)) =
      ({ state := timer_state.WAITING_FOR_RESTART
         max_speed := Double.ofDecimal 2 0
         staring_pos := ⟨Double.zero, Double.zero⟩
         start_time := ⟨0⟩ },
       [logGoal, logResult (Duration.ofSec 6) (Double.ofDecimal 2 0), logRestart]) ∧
    step (staticsAtOrigin timer_state.RUNNING 0)
        (sampleAt 6000000000 (Double.ofDecimal 35 2) Double.zero (Double.ofDecimal 2 0)) =
      ({ state := timer_state.RUNNING
         max_speed := Double.ofDecimal 2 0
         staring_pos := ⟨Double.zero, Double.zero⟩
         start_time := ⟨0⟩ }, []) :=
  ⟨((C11_table_rows_amended (staticsAtOrigin timer_state.RUNNING 0)
      (sampleAt 6000000000 (Double.ofDecimal 2 1) Double.zero (Double.ofDecimal 2 0))
      rfl (by decide)).1 (by decide)).trans (by decide),
   ((C11_table_rows_amended (staticsAtOrigin timer_state.RUNNING 0)
      (sampleAt 6000000000 (Double.ofDecimal 35 2) Double.zero (Double.ofDecimal 2 0))
      rfl (by decide)).2 (by decide)).trans (by decide)⟩

/-- Claim C12, as stated, fails: at a goal-triggering sample the second line is
not "Time: {duration}s, max speed = {maxSpeed} m/s"; the token that follows
the duration is a comma, not the letter `s`. -/
theorem C12_result_line_counterexample :
    (step (staticsAtOrigin timer_state.RUNNING 0)
        (sampleAt 6000000000 (Double.ofDecimal 2 1) Double.zero (Double.ofDecimal 2 0))).2.map
        LogEntry.tokens =
      [chars "GOAL!!!!!",
       chars "Time: " ++ Token.toSec (Duration.ofSec 6) :: Token.chr ',' ::
         (chars " max speed = " ++ Token.dbl (Double.ofDecimal 2 0) :: chars " m/s"),
       chars "Restart the node to time again..."] ∧
    (step (staticsAtOrigin timer_state.RUNNING 0)
        (sampleAt 6000000000 (Double.ofDecimal 2 1) Double.zero (Double.ofDecimal 2 0))).2.map
        LogEntry.tokens ≠
      [chars "GOAL!!!!!",
       specResultTokens (Duration.ofSec 6) (Double.ofDecimal 2 0),
       chars "Restart the node to time again..."] := by
  constructor <;> decide

/-- Claim C12, amended to the text of lines 80-85: a goal-triggering sample
(state RUNNING, elapsed time above 5.0 s, distance below 0.3) logs exactly
three lines, in order "GOAL!!!!!", "Time: {duration}, max speed = {maxSpeed}
m/s" with no unit letter after the duration, and "Restart the node to time
again..."; every other call logs nothing, or only the waiting line, or only
the start line, hence none of these three lines. -/
theorem C12_goal_lines_amended (st : Statics) (s : Sample) :
    (st.state = timer_state.RUNNING ∧
      Duration.ofSec 5 < Time.sub s.now st.start_time ∧
      distance_from_start s.msg st.staring_pos < goal_detection →
      (step st s).2 =
        [⟨Level.INFO, [Piece.str "GOAL!!!!!"]⟩,
         ⟨Level.INFO, [Piece.str "Time: ", Piece.toSec (Time.sub s.now st.start_time),
           Piece.str ", max speed = ", Piece.dbl (step st s).1.max_speed, Piece.str " m/s"]⟩,
         ⟨Level.WARN, [Piece.str "Restart the node to time again..."]⟩] ∧
      (step st s).2.map LogEntry.tokens =
        [chars "GOAL!!!!!",
         codeResultTokens (Time.sub s.now st.start_time) (step st s).1.max_speed,
         chars "Restart the node to time again..."]) ∧
    (¬ (st.state = timer_state.RUNNING ∧
        Duration.ofSec 5 < Time.sub s.now st.start_time ∧
        distance_from_start s.msg st.staring_pos < goal_detection) →
      ((step st s).2 = [] ∨ (step st s).2 = [logWaiting] ∨ (step st s).2 = [logStart]) ∧
      logGoal ∉ (step st s).2 ∧ logRestart ∉ (step st s).2 ∧
      ∀ (d : Duration) (ms : Double), logResult d ms ∉ (step st s).2) := by
  have hnone : ∀ l : List LogEntry, (l = [] ∨ l = [logWaiting] ∨ l = [logStart]) →
      (l = [] ∨ l = [logWaiting] ∨ l = [logStart]) ∧
      logGoal ∉ l ∧ logRestart ∉ l ∧ ∀ (d : Duration) (ms : Double), logResult d ms ∉ l := by
    intro l hl
    refine ⟨hl, ?_⟩
    rcases hl with rfl | rfl | rfl
    · simp
    · refine ⟨by decide, by decide, fun d ms => ?_⟩
      simp [logResult, logWaiting]
    · refine ⟨by decide, by decide, fun d ms => ?_⟩
      simp [logResult, logStart]
  constructor
  · rintro ⟨h, hel, hd⟩
    rw [step_running_goal st s h hel hd]
    exact ⟨rfl, rfl⟩
  · intro hn
    apply hnone
    rcases step_cases st s with ⟨_, e⟩ | ⟨_, _, e⟩ | ⟨h, hel, hd, _⟩ | ⟨_, _, _, e⟩ | ⟨_, _, _, e⟩
    · rw [e]; exact Or.inr (Or.inl rfl)
    · rw [e]; exact Or.inr (Or.inr rfl)
    · exact absurd ⟨h, hel, hd⟩ hn
    · rw [e]; exact Or.inl rfl
    · rw [e]; exact Or.inl rfl

theorem C12_goal_lines_amended_witness :
    (step { staticsAtOrigin timer_state.RUNNING 0 with max_speed := Double.ofDecimal 4 0 }
        (sampleAt 8000000000 (Double.ofDecimal 2 1) Double.zero (Double.ofDecimal 3 0))).2 =
      [⟨Level.INFO, [Piece.str "GOAL!!!!!"]⟩,
       ⟨Level.INFO, [Piece.str "Time: ", Piece.toSec (Duration.ofSec 8),
         Piece.str ", max speed = ", Piece.dbl (Double.ofDecimal 4 0), Piece.str " m/s"]⟩,
       ⟨Level.WARN, [Piece.str "Restart the node to time again..."]⟩] ∧
    logGoal ∉ (step (staticsAtOrigin timer_state.WAITING_FOR_START 0)
        (sampleAt 8000000000 (Double.ofDecimal 2 1) Double.zero (Double.ofDecimal 3 0))).2 :=
  ⟨((C12_goal_lines_amended
      { staticsAtOrigin timer_state.RUNNING 0 with max_speed := Double.ofDecimal 4 0 }
      (sampleAt 8000000000 (Double.ofDecimal 2 1) Double.zero (Double.ofDecimal 3 0))).1
      ⟨rfl, by decide, by decide⟩).1.trans (by decide),
   ((C12_goal_lines_amended (staticsAtOrigin timer_state.WAITING_FOR_START 0)
      (sampleAt 8000000000 (Double.ofDecimal 2 1) Double.zero (Double.ofDecimal 3 0))).2
      (by decide)).2.1⟩

/-- Claim C13: the callback never reads the z component of the position.  Two
samples that agree on the clock reading, on position x and y and on the
linear velocity give the same statics and the same log lines from every
statics, whatever their position z; the distance tested for the start and
for the goal is `sqrt((x - origin.x)^2 + (y - origin.y)^2)`. -/
theorem C13_position_z_is_ignored (st : Statics) (s1 s2 : Sample)
    (hnow : s1.now = s2.now)
    (hx : s1.msg.position.x = s2.msg.position.x)
    (hy : s1.msg.position.y = s2.msg.position.y)
    (hv : s1.msg.linear = s2.msg.linear) :
    step st s1 = step st s2 ∧
    distance_from_start s1.msg st.staring_pos =
      Double.sqrt
        ((s1.msg.position.x - st.staring_pos.x) * (s1.msg.position.x - st.staring_pos.x) +
         (s1.msg.position.y - st.staring_pos.y) * (s1.msg.position.y - st.staring_pos.y)) ∧
    distance_from_start s1.msg st.staring_pos = distance_from_start s2.msg st.staring_pos := by
  have hd : distance_from_start s1.msg st.staring_pos =
      distance_from_start s2.msg st.staring_pos := by
    simp [distance_from_start, hx, hy]
  have hs : speed s1.msg = speed s2.msg := by
    simp [speed, hv]
  refine ⟨?_, rfl, hd⟩
  simp only [step, callback_odom, hnow, hx, hy, hd, hs]

theorem C13_position_z_is_ignored_witness :
    (sampleAt 6000000000 (Double.ofDecimal 2 1) Double.zero (Double.ofDecimal 2 0)).msg.position.z
      ≠ (Sample.mk6 6000000000 (Double.ofDecimal 2 1) Double.zero (Double.ofDecimal 100 0)
          (Double.ofDecimal 2 0) Double.zero Double.zero).msg.position.z ∧
    step (staticsAtOrigin timer_state.RUNNING 0)
        (sampleAt 6000000000 (Double.ofDecimal 2 1) Double.zero (Double.ofDecimal 2 0)) =
      step (staticsAtOrigin timer_state.RUNNING 0)
        (Sample.mk6 6000000000 (Double.ofDecimal 2 1) Double.zero (Double.ofDecimal 100 0)
          (Double.ofDecimal 2 0) Double.zero Double.zero) :=
  ⟨by decide,
   (C13_position_z_is_ignored (staticsAtOrigin timer_state.RUNNING 0)
      (sampleAt 6000000000 (Double.ofDecimal 2 1) Double.zero (Double.ofDecimal 2 0))
      (Sample.mk6 6000000000 (Double.ofDecimal 2 1) Double.zero (Double.ofDecimal 100 0)
        (Double.ofDecimal 2 0) Double.zero Double.zero) rfl rfl rfl rfl).1⟩

/-- Claim C14: after the first sample `s0` of a run of a fresh timer and any
number of further samples, the stored origin is the `(x, y)` position of
`s0`.  A call changes the origin only in the initial phase, and a run is in
the initial phase only before its first sample. -/
theorem C14_origin_is_first_position (s0 : Sample) (rest : List Sample) :
    (∀ k : Nat, (run Statics.initial (s0 :: rest.take k)).1.staring_pos =
      ⟨s0.msg.position.x, s0.msg.position.y⟩) ∧
    (run Statics.initial (s0 :: rest)).1.staring_pos =
      ⟨s0.msg.position.x, s0.msg.position.y⟩ ∧
    (∀ (st : Statics) (s : Sample), (step st s).1.staring_pos ≠ st.staring_pos →
      st.state = timer_state.MEASURING_STARTING_POSITION) ∧
    (∀ k : Nat, (run Statics.initial (s0 :: rest.take k)).1.state ≠
      timer_state.MEASURING_STARTING_POSITION) := by
  have key : ∀ xs : List Sample,
      (run Statics.initial (s0 :: xs)).1.staring_pos =
        ⟨s0.msg.position.x, s0.msg.position.y⟩ ∧
      (run Statics.initial (s0 :: xs)).1.state ≠
        timer_state.MEASURING_STARTING_POSITION := by
    intro xs
    rw [run_capture]
    exact run_staring_pos xs (afterCapture s0) (by simp [afterCapture])
  refine ⟨fun k => (key _).1, (key rest).1, fun st s h => ?_, fun k => (key _).2⟩
  by_contra hne
  exact h (step_staring_pos st s hne).1

theorem C14_origin_is_first_position_witness :
    (run Statics.initial
      (exOrigin :: (exNear ++ exStart :: (exMid ++ [exGoal] ++ exPost)))).1.staring_pos =
      ⟨Double.ofDecimal 1 0, Double.ofDecimal 2 0⟩ :=
  (C14_origin_is_first_position exOrigin
    (exNear ++ exStart :: (exMid ++ [exGoal] ++ exPost))).2.1

/-- Claim C15: every result line logged in a run of a fresh timer carries a
race duration above 5.0 s.  After the start sample, samples whose elapsed
time is at most 5.0 s leave the statics as the start left them and log
nothing, whatever their positions and velocities. -/
theorem C15_goal_only_after_grace :
    (∀ (ss : List Sample) (d : Duration) (ms : Double),
      logResult d ms ∈ (run Statics.initial ss).2 → Duration.ofSec 5 < d) ∧
    (∀ (s0 : Sample) (pre : List Sample) (sStart : Sample) (window : List Sample),
      (∀ p ∈ pre, ¬ start_detection <
        distance_from_start p.msg ⟨s0.msg.position.x, s0.msg.position.y⟩) →
      start_detection <
        distance_from_start sStart.msg ⟨s0.msg.position.x, s0.msg.position.y⟩ →
      (∀ p ∈ window, Time.sub p.now sStart.now ≤ Duration.ofSec 5) →
      run Statics.initial (s0 :: (pre ++ sStart :: window)) =
        ({ state := timer_state.RUNNING
           max_speed := Double.zero
           staring_pos := ⟨s0.msg.position.x, s0.msg.position.y⟩
           start_time := sStart.now }, [logWaiting, logStart])) := by
  constructor
  · intro ss d ms h
    exact run_result_line ss Statics.initial d ms h
  · intro s0 pre sStart window hpre hs hwin
    rw [run_start s0 pre sStart window hpre hs,
      run_idle (afterStart s0 sStart) window
        (fun p hp => step_running_grace (afterStart s0 sStart) p rfl
          (Int.not_lt.mpr (hwin p hp)))]
    rfl

theorem C15_goal_only_after_grace_witness :
    logResult (Duration.ofSec 8) (Double.ofDecimal 4 0) ∈
      (run Statics.initial (exOrigin :: (exNear ++ exStart :: (exMid ++ [exGoal])))).2 ∧
    Duration.ofSec 5 < Duration.ofSec 8 ∧
    run Statics.initial (exOrigin :: (exNear ++ exStart :: exMid.take 2)) =
      ({ state := timer_state.RUNNING
         max_speed := Double.zero
         staring_pos := ⟨Double.ofDecimal 1 0, Double.ofDecimal 2 0⟩
         start_time := ⟨4000000000⟩ }, [logWaiting, logStart]) :=
  ⟨by decide,
   C15_goal_only_after_grace.1
     (exOrigin :: (exNear ++ exStart :: (exMid ++ [exGoal]))) (Duration.ofSec 8)
     (Double.ofDecimal 4 0) (by decide),
   C15_goal_only_after_grace.2 exOrigin exNear exStart (exMid.take 2)
     (by decide) (by decide) (by decide)⟩

/-- Claim C16: after every run of a fresh timer the state is one of
MEASURING_STARTING_POSITION, WAITING_FOR_START, RUNNING and
WAITING_FOR_RESTART, never GOAL_DETECTED; each of the four is reached. -/
theorem C16_reachable_states :
    (∀ ss : List Sample,
      ((run Statics.initial ss).1.state = timer_state.MEASURING_STARTING_POSITION ∨
       (run Statics.initial ss).1.state = timer_state.WAITING_FOR_START ∨
       (run Statics.initial ss).1.state = timer_state.RUNNING ∨
       (run Statics.initial ss).1.state = timer_state.WAITING_FOR_RESTART) ∧
      (run Statics.initial ss).1.state ≠ timer_state.GOAL_DETECTED) ∧
    (run Statics.initial []).1.state = timer_state.MEASURING_STARTING_POSITION ∧
    (run Statics.initial (exOrigin :: exNear)).1.state = timer_state.WAITING_FOR_START ∧
    (run Statics.initial (exOrigin :: (exNear ++ exStart :: exMid))).1.state =
      timer_state.RUNNING ∧
    (run Statics.initial (exOrigin :: (exNear ++ exStart :: (exMid ++ [exGoal])))).1.state =
      timer_state.WAITING_FOR_RESTART := by
  refine ⟨fun ss => ?_, by decide, by decide, by decide, by decide⟩
  have h := run_not_goal_detected ss Statics.initial (by decide)
  refine ⟨?_, h⟩
  cases hst : (run Statics.initial ss).1.state
  · exact Or.inl rfl
  · exact Or.inr (Or.inl rfl)
  · exact Or.inr (Or.inr (Or.inl rfl))
  · exact absurd hst h
  · exact Or.inr (Or.inr (Or.inr rfl))

/-- Claim C17: in a run of a fresh timer that reaches the goal, the stored and
the reported `max_speed` are the greatest of the speeds of the samples read
in RUNNING more than 5.0 s after the start sample, the goal sample included:
`std::max` folded over exactly those speeds from 0.  That value is at least
every such speed that is not NaN, is one of them or 0, and is at least 0.
The speeds of the origin sample, of the samples before the start, of the
start sample and of the samples inside the 5 s window do not occur in it. -/
theorem C17_reported_max_speed (s0 : Sample) (pre : List Sample) (sStart : Sample)
    (mid : List Sample) (sGoal : Sample)
    (hpre : ∀ p ∈ pre, ¬ start_detection <
      distance_from_start p.msg ⟨s0.msg.position.x, s0.msg.position.y⟩)
    (hs : start_detection <
      distance_from_start sStart.msg ⟨s0.msg.position.x, s0.msg.position.y⟩)
    (hmid : ∀ p ∈ mid, ¬ (Duration.ofSec 5 < Time.sub p.now sStart.now ∧
      distance_from_start p.msg ⟨s0.msg.position.x, s0.msg.position.y⟩ < goal_detection))
    (hel : Duration.ofSec 5 < Time.sub sGoal.now sStart.now)
    (hd : distance_from_start sGoal.msg ⟨s0.msg.position.x, s0.msg.position.y⟩ <
      goal_detection) :
    (run Statics.initial (s0 :: (pre ++ sStart :: (mid ++ [sGoal])))).2 =
      [logWaiting, logStart, logGoal,
       logResult (Time.sub sGoal.now sStart.now) (maxOf (countedSpeeds sStart mid sGoal)),
       logRestart] ∧
    (run Statics.initial (s0 :: (pre ++ sStart :: (mid ++ [sGoal])))).1.max_speed =
      maxOf (countedSpeeds sStart mid sGoal) ∧
    countedSpeeds sStart mid sGoal =
      ((mid.filter (fun p => decide (Duration.ofSec 5 < Time.sub p.now sStart.now))).map
        (fun p => speed p.msg)) ++ [speed sGoal.msg] ∧
    (∀ v ∈ countedSpeeds sStart mid sGoal, v.isNaN = false →
      v ≤ maxOf (countedSpeeds sStart mid sGoal)) ∧
    (maxOf (countedSpeeds sStart mid sGoal) = Double.zero ∨
      maxOf (countedSpeeds sStart mid sGoal) ∈ countedSpeeds sStart mid sGoal) ∧
    Double.zero ≤ maxOf (countedSpeeds sStart mid sGoal) := by
  have hm : (run (afterStart s0 sStart) mid).1.max_speed =
      ((afterGrace sStart.now mid).map (fun p => speed p.msg)).foldl Double.max Double.zero :=
    run_running_max mid (afterStart s0 sStart) rfl hmid
  have hM : Double.max (run (afterStart s0 sStart) mid).1.max_speed (speed sGoal.msg) =
      maxOf (countedSpeeds sStart mid sGoal) := by
    rw [hm]
    simp [maxOf, countedSpeeds, List.foldl_append]
  have h := run_running_idle mid (afterStart s0 sStart) rfl hmid
  have hel2 : Duration.ofSec 5 <
      Time.sub sGoal.now (run (afterStart s0 sStart) mid).1.start_time := by
    rw [h.2.2.1]; exact hel
  have hd2 : distance_from_start sGoal.msg (run (afterStart s0 sStart) mid).1.staring_pos <
      goal_detection := by
    rw [h.2.1]; exact hd
  have hrun : run Statics.initial (s0 :: (pre ++ sStart :: (mid ++ [sGoal]))) =
      ({ state := timer_state.WAITING_FOR_RESTART
         max_speed := maxOf (countedSpeeds sStart mid sGoal)
         staring_pos := ⟨s0.msg.position.x, s0.msg.position.y⟩
         start_time := sStart.now },
       [logWaiting, logStart, logGoal,
        logResult (Time.sub sGoal.now sStart.now) (maxOf (countedSpeeds sStart mid sGoal)),
        logRestart]) := by
    rw [run_start s0 pre sStart (mid ++ [sGoal]) hpre hs, run_append, run_cons, run_nil,
      step_running_goal _ sGoal h.1 hel2 hd2, h.2.2.2, h.2.1, h.2.2.1, hM]
    rfl
  refine ⟨by rw [hrun], by rw [hrun], ?_, ?_, ?_, ?_⟩
  · simp [countedSpeeds, afterGrace]
  · exact Double.foldl_max_upper _ Double.zero rfl
  · exact Double.foldl_max_mem _ Double.zero
  · exact Double.foldl_max_ge _ Double.zero rfl

theorem C17_reported_max_speed_witness :
    countedSpeeds exStart exMid exGoal = [Double.ofDecimal 4 0, Double.ofDecimal 3 0] ∧
    (exOrigin :: (exNear ++ exStart :: exMid.take 2)).map (fun p => speed p.msg) =
      [Double.zero, Double.ofDecimal 5 1, Double.ofDecimal 5 1, Double.ofDecimal 1 0,
       Double.ofDecimal 10 0, Double.ofDecimal 10 0] ∧
    (run Statics.initial (exOrigin :: (exNear ++ exStart :: (exMid ++ [exGoal])))).2 =
      [logWaiting, logStart, logGoal,
       logResult (Duration.ofSec 8) (Double.ofDecimal 4 0), logRestart] := by
  have h := C17_reported_max_speed exOrigin exNear exStart exMid exGoal
    (by decide) (by decide) (by decide) (by decide) (by decide)
  exact ⟨by decide, by decide, h.1.trans (by decide)⟩

/-- Claim C18: the goal test does not ask that the vehicle has been outside
the goal radius.  If every sample of a run lies at a planar distance below
0.3 from the origin, the start is detected and the samples after it are read
within 5.0 s of it, then the first sample read more than 5.0 s after the
start reports the goal. -/
theorem C18_goal_without_leaving (s0 : Sample) (pre : List Sample) (sStart : Sample)
    (mid : List Sample) (sGoal : Sample)
    (hpre : ∀ p ∈ pre, ¬ start_detection <
      distance_from_start p.msg ⟨s0.msg.position.x, s0.msg.position.y⟩)
    (hs : start_detection <
      distance_from_start sStart.msg ⟨s0.msg.position.x, s0.msg.position.y⟩)
    (hmid : ∀ p ∈ mid, Time.sub p.now sStart.now ≤ Duration.ofSec 5)
    (hel : Duration.ofSec 5 < Time.sub sGoal.now sStart.now)
    (hall : ∀ p ∈ s0 :: (pre ++ sStart :: (mid ++ [sGoal])),
      distance_from_start p.msg ⟨s0.msg.position.x, s0.msg.position.y⟩ < goal_detection) :
    (∀ k : Nat, run Statics.initial (s0 :: (pre ++ sStart :: mid.take k)) =
      ({ state := timer_state.RUNNING
         max_speed := Double.zero
         staring_pos := ⟨s0.msg.position.x, s0.msg.position.y⟩
         start_time := sStart.now }, [logWaiting, logStart])) ∧
    run Statics.initial (s0 :: (pre ++ sStart :: (mid ++ [sGoal]))) =
      ({ state := timer_state.WAITING_FOR_RESTART
         max_speed := Double.max Double.zero (speed sGoal.msg)
         staring_pos := ⟨s0.msg.position.x, s0.msg.position.y⟩
         start_time := sStart.now },
       [logWaiting, logStart, logGoal,
        logResult (Time.sub sGoal.now sStart.now) (Double.max Double.zero (speed sGoal.msg)),
        logRestart]) := by
  have hidle : ∀ xs : List Sample, (∀ p ∈ xs, p ∈ mid) →
      run (afterStart s0 sStart) xs = (afterStart s0 sStart, []) :=
    fun xs hxs => run_idle (afterStart s0 sStart) xs
      (fun p hp => step_running_grace (afterStart s0 sStart) p rfl
        (Int.not_lt.mpr (hmid p (hxs p hp))))
  have hd : distance_from_start sGoal.msg (afterStart s0 sStart).staring_pos <
      goal_detection :=
    hall sGoal (by simp)
  constructor
  · intro k
    rw [run_start s0 pre sStart (mid.take k) hpre hs,
      hidle (mid.take k) (fun p hp => List.mem_of_mem_take hp)]
    rfl
  · rw [run_start s0 pre sStart (mid ++ [sGoal]) hpre hs, run_append,
      hidle mid (fun p hp => hp), run_cons, run_nil,
      step_running_goal (afterStart s0 sStart) sGoal rfl hel hd]
    rfl

theorem C18_goal_without_leaving_witness :
    (∀ p ∈ sampleAt 0 Double.zero Double.zero Double.zero ::
        ([sampleAt 1000000000 (Double.ofDecimal 5 2) Double.zero (Double.ofDecimal 1 0)] ++
          sampleAt 2000000000 (Double.ofDecimal 15 2) Double.zero (Double.ofDecimal 1 0) ::
          ([sampleAt 4000000000 (Double.ofDecimal 15 2) Double.zero Double.zero,
            sampleAt 7000000000 (Double.ofDecimal 15 2) Double.zero Double.zero] ++
           [sampleAt 7000000001 (Double.ofDecimal 15 2) Double.zero Double.zero])),
      distance_from_start p.msg ⟨Double.zero, Double.zero⟩ < goal_detection) ∧
    run Statics.initial
      (sampleAt 0 Double.zero Double.zero Double.zero ::
        ([sampleAt 1000000000 (Double.ofDecimal 5 2) Double.zero (Double.ofDecimal 1 0)] ++
          sampleAt 2000000000 (Double.ofDecimal 15 2) Double.zero (Double.ofDecimal 1 0) ::
          ([sampleAt 4000000000 (Double.ofDecimal 15 2) Double.zero Double.zero,
            sampleAt 7000000000 (Double.ofDecimal 15 2) Double.zero Double.zero] ++
           [sampleAt 7000000001 (Double.ofDecimal 15 2) Double.zero Double.zero]))) =
      ({ state := timer_state.WAITING_FOR_RESTART
         max_speed := Double.zero
         staring_pos := ⟨Double.zero, Double.zero⟩
         start_time := ⟨2000000000⟩ },
       [logWaiting, logStart, logGoal,
        logResult ⟨5000000001⟩ Double.zero, logRestart]) :=
  ⟨by decide,
   (C18_goal_without_leaving (sampleAt 0 Double.zero Double.zero Double.zero)
      [sampleAt 1000000000 (Double.ofDecimal 5 2) Double.zero (Double.ofDecimal 1 0)]
      (sampleAt 2000000000 (Double.ofDecimal 15 2) Double.zero (Double.ofDecimal 1 0))
      [sampleAt 4000000000 (Double.ofDecimal 15 2) Double.zero Double.zero,
       sampleAt 7000000000 (Double.ofDecimal 15 2) Double.zero Double.zero]
      (sampleAt 7000000001 (Double.ofDecimal 15 2) Double.zero Double.zero)
      (by decide) (by decide) (by decide) (by decide) (by decide)).2.trans (by decide)⟩

/-- Claim C19: after the first sample of a run of a fresh timer and any number
of further samples, `max_speed` is at least 0 (so it is not NaN either), and
every result line of the run carries a `max_speed` at least 0. -/
theorem C19_max_speed_nonneg (s0 : Sample) (rest : List Sample) :
    (∀ k : Nat, Double.zero ≤ (run Statics.initial (s0 :: rest.take k)).1.max_speed) ∧
    Double.zero ≤ (run Statics.initial (s0 :: rest)).1.max_speed ∧
    (∀ (d : Duration) (ms : Double),
      logResult d ms ∈ (run Statics.initial (s0 :: rest)).2 → Double.zero ≤ ms) := by
  have h0 : Double.zero ≤ Statics.initial.max_speed := Double.le_refl rfl
  exact ⟨fun k => (run_max_speed_nonneg _ Statics.initial h0).1,
    (run_max_speed_nonneg _ Statics.initial h0).1,
    (run_max_speed_nonneg _ Statics.initial h0).2⟩

theorem C19_max_speed_nonneg_witness :
    Double.zero ≤ Double.ofDecimal 4 0 ∧
    Double.zero ≤ (run Statics.initial
      [Sample.mk6 0 Double.zero Double.zero Double.zero Double.zero Double.zero Double.zero,
       sampleAt 0 (Double.ofDecimal 15 2) Double.zero Double.zero,
       Sample.mk6 6000000000 (Double.ofDecimal 1 0) Double.zero Double.zero
         Double.nan Double.zero Double.zero]).1.max_speed :=
  ⟨(C19_max_speed_nonneg exOrigin (exNear ++ exStart :: (exMid ++ [exGoal]))).2.2
      (Duration.ofSec 8) (Double.ofDecimal 4 0) (by decide),
   (C19_max_speed_nonneg
      (Sample.mk6 0 Double.zero Double.zero Double.zero Double.zero Double.zero Double.zero)
      [sampleAt 0 (Double.ofDecimal 15 2) Double.zero Double.zero,
       Sample.mk6 6000000000 (Double.ofDecimal 1 0) Double.zero Double.zero
         Double.nan Double.zero Double.zero]).2.1⟩

end MechatronicsTimer
